import Mathlib

/-!
# Verification of the `ceres-mpq` MPQ archive codec

A shallow embedding, in Lean 4, of the Rust library `ceres-mpq`, which reads
and writes Version-1 MoPaQ (MPQ) archives.  Byte buffers are modelled as
`List Nat` (each element intended to be `< 256`); 32-bit and 64-bit machine
integers are `Nat` with explicit reductions modulo `2^32` / `2^64` at the
points where the Rust code wraps or casts.  Fallible operations return
`Except MpqError` mirroring the library's error enum.

The repository's `consts.rs` module (constant definitions and the two
ASCII-fold lookup tables), the live `Seeker` / `FileHeader` modules and the
functions `encrypt_mpq_block` / `compress_mpq_block` are not present in the
source tree; where a definition below models one of those, its doc comment
says `Modelled from the spec:` and the definition follows the specification
text.  Everything else is translated from the Rust sources
(`crypto.rs`, `util.rs`, `table.rs`, `archive.rs`, `creator.rs`).

External collaborators (the DEFLATE/BZIP2 codecs of `flate2`/`bzip2` and
UTF-8 decoding of `std::str`) are parameters of the model, as the spec
declares them out of scope.
-/

namespace CeresMpq

/-! ## Machine-integer helpers -/

/-- `2^32`, the modulus of wrapping `u32` arithmetic. -/
def M32 : Nat := 4294967296

/-- `2^64`, the modulus of wrapping `u64` arithmetic. -/
def M64 : Nat := 18446744073709551616

/-- Little-endian recomposition of four bytes into a `u32` word. -/
def toU32LE (a b c d : Nat) : Nat := a + 256 * b + 65536 * c + 16777216 * d

/-- View a byte buffer as little-endian `u32` words, dropping the trailing
`len % 4` bytes (exactly the aligned prefix the Rust cipher operates on). -/
def bytesToWords : List Nat → List Nat
  | a :: b :: c :: d :: rest => toU32LE a b c d :: bytesToWords rest
  | _ => []

/-- Serialize `u32` words back to little-endian bytes. -/
def wordsToBytes : List Nat → List Nat
  | [] => []
  | w :: rest =>
      w % 256 :: w / 256 % 256 :: w / 65536 % 256 :: w / 16777216 % 256 ::
        wordsToBytes rest

/-- The 4-byte little-endian encoding of a `u32` value. -/
def u32le (w : Nat) : List Nat := [w % 256, w / 256 % 256, w / 65536 % 256, w / 16777216 % 256]

/-- The 2-byte little-endian encoding of a `u16` value. -/
def u16le (w : Nat) : List Nat := [w % 256, w / 256 % 256]

/-- The unaligned tail of a buffer, left untouched by the block cipher. -/
def trailingBytes (data : List Nat) : List Nat := data.drop (4 * (data.length / 4))

/-! ## List indexing helpers -/

/-- `getD` after `set` at the same (in-range) position yields the new value. -/
theorem getD_set_self {α : Type} (l : List α) (i : Nat) (a d : α) (h : i < l.length) :
    (l.set i a).getD i d = a := by
  induction l generalizing i with
  | nil => simp at h
  | cons x xs ih =>
    cases i with
    | zero => rfl
    | succ n => simpa using ih n (by simpa using h)

/-- `getD` after `set` at a different position is unchanged. -/
theorem getD_set_other {α : Type} (l : List α) (i j : Nat) (a d : α) (h : i ≠ j) :
    (l.set i a).getD j d = l.getD j d := by
  induction l generalizing i j with
  | nil => rfl
  | cons x xs ih =>
    cases i with
    | zero => cases j with
      | zero => exact absurd rfl h
      | succ m => rfl
    | succ n => cases j with
      | zero => rfl
      | succ m => simpa using ih n m (by omega)

/-- `getD` on `replicate`. -/
theorem getD_replicate {α : Type} (n i : Nat) (a d : α) (h : i < n) :
    (List.replicate n a).getD i d = a := by
  induction n generalizing i with
  | zero => omega
  | succ m ih =>
    rw [List.replicate_succ]
    cases i with
    | zero => rfl
    | succ k =>
      rw [List.getD_cons_succ]
      exact ih k (by omega)

/-- Two lists of the same length that agree on `getD` at every index are equal. -/
theorem list_ext_getD {α : Type} (d : α) :
    ∀ (l₁ l₂ : List α), l₁.length = l₂.length →
      (∀ i, i < l₁.length → l₁.getD i d = l₂.getD i d) → l₁ = l₂ := by
  intro l₁
  induction l₁ with
  | nil => intro l₂ h _; cases l₂ <;> simp_all
  | cons x xs ih =>
    intro l₂ h hp
    cases l₂ with
    | nil => simp at h
    | cons y ys =>
      have h0 : x = y := hp 0 (by simp)
      have hrest : xs = ys := by
        refine ih ys (by simpa using h) ?_
        intro i hi
        have := hp (i + 1) (by simp; omega)
        simpa using this
      rw [h0, hrest]

/-- Masking with `2^k - 1` is reduction modulo `2^k` (the meaning of the
Rust `& hash_mask` index operations on power-of-two tables). -/
theorem land_two_pow_sub_one (x k : Nat) : Nat.land x (2 ^ k - 1) = x % 2 ^ k := by
  apply Nat.eq_of_testBit_eq
  intro i
  rw [show Nat.land x (2 ^ k - 1) = x &&& (2 ^ k - 1) from rfl]
  rw [Nat.testBit_and, Nat.testBit_two_pow_sub_one, Nat.testBit_mod_two_pow]
  cases Nat.testBit x i <;> simp

/-! ## Crypto table (`crypto.rs`, `generate_crypto_table`) -/

/-- One step of the key-table linear congruential generator:
`seed = (seed * 125 + 3) % 0x2AAAAB` (from `generate_crypto_table`). -/
def lcgNext (seed : Nat) : Nat := (seed * 125 + 3) % 0x002AAAAB

/-- The body of the inner loop of `generate_crypto_table`: draw two LCG
outputs and store `(s1 & 0xFFFF) << 0x10 | (s2 & 0xFFFF)` at `index`. -/
def cryptoCellStep (index : Nat) (st : List Nat × Nat) : List Nat × Nat :=
  let seed1 := lcgNext st.2
  let t1 := Nat.land seed1 0xFFFF <<< 0x10
  let seed2 := lcgNext seed1
  let t2 := Nat.land seed2 0xFFFF
  (st.1.set index (Nat.lor t1 t2), seed2)

/-- The body of the outer loop of `generate_crypto_table` (`for j in 0..5`,
writing cell `i + j * 0x100`). -/
def cryptoOuterStep (st : List Nat × Nat) (i : Nat) : List Nat × Nat :=
  (List.range 5).foldl (fun st j => cryptoCellStep (i + j * 256) st) st

/-- `generate_crypto_table` from `crypto.rs`: a 0x500-entry table of `u32`,
filled by the nested loop `for i in 0..0x100 { for j in 0..5 { ... } }`,
with the LCG state seeded at `0x00100001`. -/
def generate_crypto_table : List Nat :=
  ((List.range 256).foldl cryptoOuterStep (List.replicate 1280 0, 0x00100001)).1

/-- The table entry produced from LCG state `s`: two successive outputs
`s1, s2`, combined as `(s1 & 0xFFFF) << 0x10 | (s2 & 0xFFFF)`. -/
def entryFromSeed (s : Nat) : Nat :=
  Nat.lor (Nat.land (lcgNext s) 0xFFFF <<< 0x10) (Nat.land (lcgNext (lcgNext s)) 0xFFFF)

theorem cryptoCellStep_eq (idx : Nat) (st : List Nat × Nat) :
    cryptoCellStep idx st = (st.1.set idx (entryFromSeed st.2), lcgNext (lcgNext st.2)) := rfl

theorem cryptoOuterStep_eq (i : Nat) (st : List Nat × Nat) :
    cryptoOuterStep st i =
      (((((st.1.set i (entryFromSeed st.2)).set (i + 256)
            (entryFromSeed (lcgNext^[2] st.2))).set (i + 512)
            (entryFromSeed (lcgNext^[4] st.2))).set (i + 768)
            (entryFromSeed (lcgNext^[6] st.2))).set (i + 1024)
            (entryFromSeed (lcgNext^[8] st.2)),
       lcgNext^[10] st.2) := rfl

/-- State invariant of the outer generation loop: after `n` outer
iterations the LCG state has advanced `10 * n` steps and the cells
`i + j * 256` for `i < n` hold their final values. -/
theorem crypto_outer_inv (n : Nat) (hn : n ≤ 256) :
    ((List.range n).foldl cryptoOuterStep (List.replicate 1280 0, 0x00100001)).2 =
        lcgNext^[10 * n] 0x00100001 ∧
    ((List.range n).foldl cryptoOuterStep (List.replicate 1280 0, 0x00100001)).1.length = 1280 ∧
    ∀ i j, i < 256 → j < 5 →
      ((List.range n).foldl cryptoOuterStep
          (List.replicate 1280 0, 0x00100001)).1.getD (i + j * 256) 0 =
        if i < n then entryFromSeed (lcgNext^[2 * (5 * i + j)] 0x00100001) else 0 := by
  induction n with
  | zero =>
    refine ⟨rfl, by simp only [List.range_zero, List.foldl_nil, List.length_replicate], ?_⟩
    intro i j hi hj
    simp only [List.range_zero, List.foldl_nil]
    rw [getD_replicate 1280 (i + j * 256) 0 0 (by omega), if_neg (by omega)]
  | succ n ih =>
    obtain ⟨hseed, hlen, hcell⟩ := ih (by omega)
    rw [List.range_succ, List.foldl_append, List.foldl_cons, List.foldl_nil]
    generalize hPdef : (List.range n).foldl cryptoOuterStep
      (List.replicate 1280 0, 0x00100001) = P at hseed hlen hcell ⊢
    rw [cryptoOuterStep_eq]
    refine ⟨?_, ?_, ?_⟩
    · show lcgNext^[10] P.2 = _
      rw [show 10 * (n + 1) = 10 + 10 * n from by omega, Function.iterate_add_apply, hseed]
    · show (List.length _) = 1280
      simp only [List.length_set]
      exact hlen
    · intro i j hi hj
      show (List.getD _ _ _) = _
      have hv : ∀ k, entryFromSeed (lcgNext^[2 * k] P.2) =
          entryFromSeed (lcgNext^[2 * (5 * n + k)] 0x00100001) := by
        intro k
        rw [hseed, ← Function.iterate_add_apply]
        have : 2 * k + 10 * n = 2 * (5 * n + k) := by omega
        rw [this]
      by_cases hin : i = n
      · subst hin
        interval_cases j
        · rw [getD_set_other, getD_set_other, getD_set_other, getD_set_other,
            show i + 0 * 256 = i from by omega, getD_set_self, if_pos (by omega)]
          · exact hv 0
          all_goals omega
        · rw [show i + 1 * 256 = i + 256 from by omega,
            getD_set_other, getD_set_other, getD_set_other, getD_set_self, if_pos (by omega)]
          · exact hv 1
          · simp only [List.length_set]; omega
          all_goals omega
        · rw [show i + 2 * 256 = i + 512 from by omega,
            getD_set_other, getD_set_other, getD_set_self, if_pos (by omega)]
          · exact hv 2
          · simp only [List.length_set]; omega
          all_goals omega
        · rw [show i + 3 * 256 = i + 768 from by omega,
            getD_set_other, getD_set_self, if_pos (by omega)]
          · exact hv 3
          · simp only [List.length_set]; omega
          all_goals omega
        · rw [show i + 4 * 256 = i + 1024 from by omega, getD_set_self, if_pos (by omega)]
          · exact hv 4
          · simp only [List.length_set]; omega
      · rw [getD_set_other, getD_set_other, getD_set_other, getD_set_other,
          getD_set_other, hcell i j hi hj]
        · split_ifs <;> first | rfl | omega
        all_goals omega

/-- Cells 0..127 of the key table, in generation order. -/
def CELLS_0 : List Nat := [
  1439053538, 1996014001, 1039570525, 368206291, 423274136, 46006640, 3012843986, 817963899,
  2823564557, 1419179989, 1481339348, 1058940633, 4160120938, 1358005670, 1107858203, 696578062,
  3783334887, 2678890886, 867844565, 2051081964, 3062024201, 1458379853, 2084569206, 964235283,
  2213046336, 2446296939, 3385953016, 2242703242, 1269822542, 4103827340, 2002426916, 3894937102,
  4105622048, 4008618524, 3124599377, 1501387941, 2445990446, 3720562716, 3762848532, 1442139613,
  1511718578, 1556871607, 1134472900, 1436339499, 769987442, 3555315213, 4054143700, 1903935075,
  2701456453, 2600163099, 852348408, 1016939331, 2186934951, 1668233156, 984830982, 2978087373,
  3774908293, 3598892392, 642604603, 2909077279, 1020134862, 719318719, 2469037584, 1975615285,
  3346490622, 2774340542, 4177674400, 952044159, 1967276337, 2139505766, 3138059889, 1023986919,
  1645404871, 3138475833, 1097702612, 2474027827, 1114533808, 2297311592, 1962833242, 2722665080,
  2223989854, 1463588943, 3015864391, 2100984486, 3809183460, 2279889477, 329794478, 1630784286,
  764143492, 189936054, 1169711127, 1080783929, 355030278, 2213352778, 3127357142, 1583705256,
  1667270105, 1525047878, 4230378456, 3853198439, 461707925, 1342225050, 488672733, 1155353215,
  1610779536, 625138647, 2907326379, 2837265850, 2030398664, 496902342, 2874014180, 2936020365,
  3272971917, 2194442289, 712796458, 1500950171, 1100548014, 1789027915, 2637962108, 1802050779,
  1815182973, 408719254, 1902972106, 3913628666, 2656172055, 3453824916, 3857313101, 2300528982]

/-- Cells 128..255 of the key table, in generation order. -/
def CELLS_1 : List Nat := [
  607213204, 2608217580, 1010570213, 1635139891, 2156293119, 1713320531, 1026110015, 861606769,
  3547348375, 3176581191, 1968480092, 3487640424, 832934602, 2895704262, 2425569882, 3140183021,
  1967867291, 1373961292, 3687031676, 685612679, 1742736790, 2720235591, 4158348079, 2247102660,
  2230271496, 4102645447, 3653588244, 2327690817, 2420710962, 1762281942, 226224726, 1809645505,
  2347411060, 4046330047, 1786707842, 3261043439, 1765696320, 550941465, 3364656865, 2882528256,
  2840045469, 2184724455, 3731659421, 3556497113, 1027335626, 3729448815, 420932191, 3316417765,
  3821177608, 941319436, 2886665026, 3967536473, 1146773483, 3586066636, 1266452002, 3555402859,
  1927157338, 2492828848, 2984740953, 1040336627, 2762609038, 3885635095, 511522887, 625401295,
  2740328020, 1010723398, 2395497012, 4082969008, 2955981312, 2491975260, 1165968449, 2834354820,
  3395079898, 2868717585, 988748786, 2768912495, 550044198, 3073558709, 1437740321, 1583179938,
  1817218463, 2079950980, 4258021853, 3549164903, 3543080412, 3920369895, 681935665, 249359382,
  1184660011, 1368861680, 516797626, 1053031022, 2634153646, 1523603346, 393879867, 967605818,
  1289783643, 291885966, 2711984158, 1184069058, 2142438650, 3277042896, 2665583560, 2113635204,
  929303504, 1866004712, 871302735, 3207835964, 886163978, 4231210184, 1257040493, 568713744,
  1639714300, 2125519840, 118037001, 1627610739, 3367721117, 4013849577, 3592216822, 761517051,
  2171635975, 3898460850, 4174697669, 964716727, 559149091, 3955257861, 2892333727, 3348854420]

/-- Cells 256..383 of the key table, in generation order. -/
def CELLS_2 : List Nat := [
  3862981919, 1210202229, 2432529940, 2814350032, 1512397123, 2511235911, 1638225958, 3039633791,
  94771021, 188600842, 3827831344, 2350081336, 1817043349, 631573550, 2635773347, 2961453153,
  1240931736, 500469892, 3855058807, 3483941463, 2802465384, 2227688734, 1693337644, 1031078431,
  1584230505, 3812685349, 2236947059, 2496111905, 1269472408, 3414800177, 1927069693, 332793029,
  1410075096, 599640196, 1036046683, 2394468301, 3607209510, 1977585109, 2522069975, 223182462,
  414606879, 2277000394, 1094791671, 3135039477, 2548268843, 401562204, 1948168861, 915996022,
  3263407236, 4277939121, 809762, 707565436, 4152679247, 3225476910, 4183496373, 1805727798,
  3348613635, 4173953539, 2473633857, 665148307, 1634067331, 1816167895, 76495289, 791765026,
  1173497641, 1950882907, 766310299, 1005908157, 921621041, 1285056048, 3849258769, 1934598891,
  2360674706, 2888612876, 2087086178, 2725204004, 3425240407, 2606291438, 331392155, 1604585543,
  1609707104, 4196300260, 3853220300, 3453036951, 2750505477, 832956457, 112368167, 2589941842,
  134123954, 2031843172, 2701741040, 3201182330, 3180695984, 3447630797, 946550486, 3330337900,
  1889817931, 4208075563, 738273053, 1852588015, 2364745687, 3375731758, 1516446292, 407055864,
  3344455131, 3958453386, 2808396737, 42395160, 1503423431, 1253866951, 1780645167, 535007702,
  2329135351, 1978219866, 1244827547, 1946571140, 2013786306, 3825598838, 3061477090, 3471969295,
  2381730066, 1080061657, 1967932951, 2389937686, 1622707975, 733808110, 3843371142, 1544571147]

/-- Cells 384..511 of the key table, in generation order. -/
def CELLS_3 : List Nat := [
  4287656957, 4156246927, 3838840534, 3911024082, 1870491647, 2943812202, 2198557074, 696315418,
  3982310313, 562541610, 4168000252, 2499219948, 1793186419, 2853484106, 1467287899, 2437979811,
  539297618, 3896906970, 2209500633, 49596003, 866618822, 966599075, 1821968043, 3961517517,
  1516096006, 1333338954, 3854599181, 3482190555, 3123964627, 4266316999, 980759996, 3882680229,
  3547479703, 3840897884, 1407295357, 892992689, 1649388329, 2465623215, 3154519096, 1509902005,
  822341202, 1576088550, 2894369223, 3636450595, 3166972837, 1332682345, 2212542904, 2932233878,
  1195187716, 4247734935, 1806953404, 3313069051, 3112802255, 537393319, 3201751301, 1287091541,
  1249555152, 4195796834, 2955477997, 2506267499, 2379344281, 3126437921, 1836303967, 2263517914,
  564248795, 719209373, 61349452, 542974630, 2511038927, 2853221469, 290594734, 3443187675,
  1305717413, 4246706185, 3874450776, 3108840773, 850553740, 770403264, 2629032123, 680709965,
  2380176061, 2385888563, 2671208556, 1374968152, 2683137040, 420034879, 2657288425, 1906649131,
  2631746166, 507014135, 3079840317, 2365139653, 929806816, 3259336286, 2615199464, 1956398427,
  2282559723, 2147428891, 2399961963, 724506095, 3048607532, 320492467, 3731331119, 1323817991,
  435530875, 939809230, 785570916, 2629776334, 4130770333, 2063535730, 229464096, 2989643713,
  778939191, 4012645825, 836392815, 2972746843, 2690928833, 1848911033, 3998659915, 807742644,
  689749330, 462605198, 249643964, 3177369135, 1467572396, 3734657975, 1928164110, 2200592601]

/-- Cells 512..639 of the key table, in generation order. -/
def CELLS_4 : List Nat := [
  4103170733, 376348250, 1373567329, 430343664, 3143838177, 3357324692, 2838973025, 1364943880,
  2189649027, 334937853, 1098030921, 1899404438, 3396239934, 1121537674, 1499855748, 616493220,
  2146969262, 942567028, 4003190518, 4127925052, 3740567465, 3893842726, 4005444977, 1433209706,
  1030312323, 573441464, 3401317683, 1284443242, 3127203994, 1127359649, 2369516998, 26286350,
  3866549482, 3726953700, 3050949349, 297095177, 1771912254, 350346364, 1395826540, 2185599915,
  2903102131, 917768994, 1870644788, 3344236171, 2669785873, 433823697, 3012887827, 3481643331,
  1346186695, 2943111751, 3611455621, 2609421306, 3550390638, 268598180, 3024597306, 870055051,
  2771013639, 326007955, 3551922827, 2066118339, 1382781816, 2888372205, 1902424836, 1759939971,
  3280566733, 2030967752, 994986575, 4079948595, 177285289, 2233904677, 2996406784, 3075725526,
  901988404, 1499439967, 3310398811, 2774800131, 1012080418, 3728332577, 184792510, 1750112679,
  108450377, 1479500839, 2443736121, 352994756, 1709818557, 1804699084, 2848822185, 3289387295,
  2976029902, 3855014966, 820262031, 1416509870, 703691436, 3858188667, 3775608745, 2193960805,
  607103698, 320251647, 2322634916, 2281793656, 1472715812, 3537958727, 317822190, 3089317481,
  3464615140, 1218191053, 167129693, 1108055193, 2392914296, 618069120, 2680860714, 1507100441,
  4146966748, 1532467568, 1090917677, 1456869655, 2910762606, 1762369427, 3937485592, 1833918352,
  4270234796, 3578865784, 399592370, 1260958307, 3302782142, 1442599232, 1457438621, 2408782520]

/-- Cells 640..767 of the key table, in generation order. -/
def CELLS_5 : List Nat := [
  3061214447, 3678955372, 2143007618, 1359472037, 561316028, 108537975, 1823828407, 2656763001,
  4055894692, 2270434296, 358378960, 4089403791, 268729497, 2169293992, 2561860669, 3339793212,
  69929177, 4238301572, 1611501808, 3307181425, 4162440927, 46969566, 1448640045, 2615768601,
  1422835146, 15408488, 2969923429, 3112276976, 2438964722, 119131257, 3607100014, 1201228532,
  2566807182, 727066845, 4089907213, 1134451042, 4195621796, 699489131, 2738708314, 3827853169,
  3613775579, 2474027822, 2506223701, 1499330497, 2750067661, 3406548713, 128411447, 3138169381,
  1768300893, 1248526560, 1832670791, 1978132220, 508480533, 1357677367, 298780505, 2522113779,
  1151172769, 603273531, 4057076594, 2122937209, 212435913, 62334365, 138785880, 249753339,
  1530038124, 1961673166, 4141823370, 3472844746, 2912841911, 1586287862, 4228211638, 1517671865,
  2962853900, 2869768164, 216922724, 1118867438, 1193830691, 11621967, 3475471197, 2442838727,
  3316877395, 991572207, 971961297, 1649957420, 2987717555, 4266667243, 4005444970, 4240555908,
  2203744324, 243909516, 2068000687, 2645666304, 2894631861, 1957821035, 4039391801, 3272205840,
  8032473, 1686421262, 1236991957, 3940615458, 741971928, 610693233, 2445290163, 782878820,
  2203831814, 1131890260, 27030479, 2349599856, 311628200, 2666283970, 364748076, 1761844173,
  1752148166, 3187284071, 3928402390, 3983163917, 2509244228, 3782328022, 2211076503, 1767053345,
  3355398668, 1696117227, 3752736735, 2635970329, 1730523722, 3098116049, 1761997314, 3584140519]

/-- Cells 768..895 of the key table, in generation order. -/
def CELLS_6 : List Nat := [
  2226878950, 3665932514, 1582129356, 3996733874, 3823847841, 2654968306, 3585388083, 3111357713,
  3779198121, 1583355104, 826237185, 135240187, 3659629055, 2038409266, 542843308, 463021147,
  363347375, 1940661655, 1519773019, 4250448858, 3512569778, 702531360, 982445197, 3592829717,
  779880397, 3472428929, 2447478799, 2894456697, 1533146004, 4012689498, 692397709, 672546136,
  4093212118, 2306525980, 3612900166, 3686593907, 2211514274, 3120462737, 6259625, 4095181949,
  2969704582, 1319900314, 253058334, 574754673, 2318454465, 2665999389, 2675038744, 677426909,
  4103411566, 1889029996, 486024439, 1641399546, 2203678667, 2115211069, 4038472584, 2125082162,
  3819645535, 2959111222, 328393604, 3256928653, 1774232245, 3350255167, 2628484971, 926676906,
  3991284022, 1955873180, 3016521002, 2327384454, 2387683350, 2462099379, 3797145555, 1642844086,
  3240841705, 2841686986, 519270888, 1222262034, 654292266, 537415307, 74766156, 537261999,
  1169732977, 3984105023, 1153076909, 4289517271, 2443473509, 3679261818, 2856044888, 2772611376,
  787869086, 2966377732, 3626864094, 1163560840, 2193413572, 1620650666, 3573590952, 643633314,
  3384836777, 3430186830, 2120814233, 3411823571, 2963729306, 169602830, 253299160, 599815325,
  2604387267, 2115802022, 3264895614, 3659804188, 3638726917, 3479585973, 922627910, 353191733,
  1870469792, 1432181001, 3465840879, 3702352640, 2486700512, 3529663622, 358816766, 4180334,
  88314257, 1763792144, 2295363614, 2795264540, 2856460847, 2966312068, 4010479017, 2875808973]

/-- Cells 896..1023 of the key table, in generation order. -/
def CELLS_7 : List Nat := [
  1343231946, 1212478416, 1641136905, 995008435, 4199977285, 2571337800, 1303944567, 2376477187,
  3635793996, 3036591452, 947075783, 141040302, 114359855, 3349160872, 3192383638, 3867337416,
  1714371112, 3133594940, 2966749832, 3876223624, 3563413462, 1981108955, 3391096563, 1686246261,
  3579938210, 2507033604, 502767994, 2200023471, 3261130959, 2901723249, 880670275, 2482957722,
  68265715, 2224471340, 153625394, 793450363, 3427363407, 3901853356, 4283388981, 501148328,
  2481797796, 2719469517, 564314450, 263542284, 1493990107, 2810060245, 1000589616, 2445333839,
  2094484050, 4104746599, 2061850370, 646938231, 1789531386, 2472057984, 3218626309, 3534041049,
  127382689, 3710035008, 2291620935, 245857484, 4018905484, 2347498577, 2295013493, 2210244765,
  2851623780, 3084108270, 109654212, 2051979283, 2345419414, 2199476329, 2155395725, 382235874,
  1739563121, 28847137, 2348483610, 2874845915, 3259161124, 3638135964, 4253162943, 3682873180,
  1965809807, 4213350262, 837881159, 642911047, 3606115093, 109785537, 2692307714, 1878108328,
  77086233, 2809491111, 126529084, 1755299894, 799731873, 3554789927, 173126713, 2858058563,
  396834610, 1218585019, 2016172047, 2850945187, 306025064, 3524979712, 1004967051, 846198131,
  3641200175, 753593923, 2885723794, 2860115867, 3243752647, 2188642296, 2394796601, 1528921880,
  245835660, 1331587972, 3568075396, 1694650867, 2923566628, 2050512879, 1156316155, 158571789,
  76035656, 734026944, 1236794965, 3659979224, 3015404796, 2355290414, 1220664186, 3575429425]

/-- Cells 1024..1151 of the key table, in generation order. -/
def CELLS_8 : List Nat := [
  1826214030, 3577333629, 313729383, 1330537396, 68944269, 387576280, 1807522496, 3843108506,
  375910478, 12125441, 1901855879, 902185386, 268445000, 872550292, 1172994177, 741162130,
  2471270064, 1048215949, 2536187221, 2411846607, 1408936873, 3514495767, 125719335, 2584163675,
  3087741609, 3162726726, 700889839, 4047555617, 23484784, 2880230121, 1359778518, 2994064812,
  1827133277, 2109082735, 1736170560, 3767138346, 3609617118, 2610559397, 987172923, 3970753858,
  1182799647, 2673616196, 840266780, 1547504064, 1835341035, 916390110, 3249114997, 3064650670,
  4003715802, 834707447, 1894523697, 3649998746, 1938254044, 2294422544, 1584143037, 237321557,
  1203592326, 2191750191, 270808791, 473505039, 3673921303, 1892028582, 1985048608, 1782264832,
  245200881, 3856503341, 3041406676, 3716623064, 3948035148, 1897478445, 2509331745, 599377548,
  2634613426, 4221032598, 1810477242, 2686463894, 1008447078, 2098883332, 2521610347, 1637153399,
  2707541063, 1767206527, 1228412306, 3716644920, 1172709704, 3939477233, 3640849888, 1671844517,
  86628941, 1109609202, 3982397833, 1698503003, 202761766, 185886885, 3273891174, 3669522052,
  3731177979, 3794759894, 410229448, 2476522940, 2763484490, 129812140, 31998853, 4159858280,
  1444941212, 4201662615, 3337516936, 2996691252, 4132390001, 1797739016, 1662980282, 2148873428,
  549781518, 1544877507, 1729011, 3550324985, 740242880, 3915510851, 1151369723, 3435308358,
  1572126948, 3655229773, 758212142, 967605815, 1265773536, 385737770, 3184307333, 1021754408]

/-- Cells 1152..1279 of the key table, in generation order. -/
def CELLS_9 : List Nat := [
  2316812907, 3995464375, 771716480, 3033833690, 888790420, 2257542759, 1837551518, 3044011134,
  606950555, 4198882899, 959551373, 2859196621, 3288314736, 2643871638, 1232439485, 1860139031,
  1305323446, 2389653180, 3117332866, 2489852251, 1230097511, 2027203091, 1620563033, 1509595561,
  125303388, 2486437875, 921336537, 1364024630, 3633867969, 1869681856, 3428742287, 1059706624,
  2779199458, 2660286881, 3773310612, 729737001, 3739889028, 964147635, 29087791, 3828816262,
  3417514224, 1785394621, 4247888074, 3622946301, 1460743650, 301910247, 414169116, 2419288283,
  3716447930, 3771384457, 4241475160, 3638880060, 3895922017, 2285711453, 4070821600, 54870868,
  2326202554, 2551223584, 636563794, 1782702521, 926589420, 1703646425, 2917285036, 1251109197,
  3217991549, 492371610, 2792769420, 2583178756, 2012341761, 4180147538, 105320622, 3483438114,
  1105100451, 2149902055, 1769242008, 2827657402, 626605172, 2225193621, 44430653, 3198643419,
  3515064894, 2375426613, 152640480, 2621371609, 2379453783, 1087459491, 1603797616, 814943490,
  2940222668, 81485518, 4113676497, 1039592384, 480224330, 3802989504, 705201608, 2816057221,
  2390594298, 3288774359, 1190000364, 1004857582, 293833941, 3287176673, 4007436626, 1872483302,
  567772636, 2979947699, 3589743687, 1632207004, 3424955770, 165575694, 1030202857, 45152917,
  2953420532, 1202694930, 844687923, 2955696838, 1387312416, 3321254821, 2183761399, 1368533378,
  2579085800, 1892860191, 1276147981, 1888263916, 4002271268, 1277176698, 980409708, 1929586796]

/-- Entries 0..127 of the key table, in index order. -/
def TBL_0 : List Nat := [
  1439053538, 46006640, 1481339348, 696578062, 3062024201, 2446296939, 2002426916, 1501387941,
  1511718578, 3555315213, 852348408, 2978087373, 1020134862, 2774340542, 3138059889, 2474027827,
  2223989854, 2279889477, 1169711127, 1583705256, 461707925, 625138647, 2874014180, 1500950171,
  1815182973, 3453824916, 1010570213, 861606769, 832934602, 1373961292, 4158348079, 2327690817,
  2347411060, 550941465, 3731659421, 3316417765, 1146773483, 2492828848, 511522887, 4082969008,
  3395079898, 3073558709, 4258021853, 249359382, 2634153646, 291885966, 2665583560, 3207835964,
  1639714300, 4013849577, 4174697669, 3348854420, 1512397123, 188600842, 2635773347, 3483941463,
  1584230505, 3414800177, 1036046683, 223182462, 2548268843, 4277939121, 4183496373, 665148307,
  1173497641, 1285056048, 2087086178, 1604585543, 2750505477, 2031843172, 946550486, 1852588015,
  3344455131, 1253866951, 1244827547, 3471969295, 1622707975, 4156246927, 2198557074, 2499219948,
  539297618, 966599075, 3854599181, 3882680229, 1649388329, 1576088550, 2212542904, 3313069051,
  1249555152, 3126437921, 61349452, 3443187675, 850553740, 2385888563, 2657288425, 2365139653,
  2282559723, 320492467, 785570916, 2989643713, 2690928833, 462605198, 1928164110, 430343664,
  2189649027, 1121537674, 4003190518, 1433209706, 3127203994, 3726953700, 1395826540, 3344236171,
  1346186695, 268598180, 3551922827, 1759939971, 177285289, 1499439967, 184792510, 352994756,
  2976029902, 3858188667, 2322634916, 3089317481, 2392914296, 1532467568, 3937485592, 1260958307]

/-- Entries 128..255 of the key table, in index order. -/
def TBL_1 : List Nat := [
  3061214447, 108537975, 358378960, 3339793212, 4162440927, 15408488, 3607100014, 1134451042,
  3613775579, 3406548713, 1832670791, 2522113779, 212435913, 1961673166, 4228211638, 1118867438,
  3316877395, 4266667243, 2068000687, 3272205840, 741971928, 1131890260, 364748076, 3983163917,
  3355398668, 3098116049, 1582129356, 3111357713, 3659629055, 1940661655, 982445197, 2894456697,
  4093212118, 3120462737, 253058334, 677426909, 2203678667, 2959111222, 2628484971, 2327384454,
  3240841705, 537415307, 1153076909, 2772611376, 2193413572, 3430186830, 253299160, 3659804188,
  1870469792, 3529663622, 2295363614, 2875808973, 4199977285, 3036591452, 3192383638, 3876223624,
  3579938210, 2901723249, 153625394, 501148328, 1493990107, 4104746599, 3218626309, 245857484,
  2851623780, 2199476329, 2348483610, 3682873180, 3606115093, 2809491111, 173126713, 2850945187,
  3641200175, 2188642296, 3568075396, 158571789, 3015404796, 3577333629, 1807522496, 902185386,
  2471270064, 3514495767, 700889839, 2994064812, 3609617118, 2673616196, 3249114997, 3649998746,
  1203592326, 1892028582, 3041406676, 599377548, 1008447078, 1767206527, 3640849888, 1698503003,
  3731177979, 129812140, 3337516936, 2148873428, 740242880, 3655229773, 3184307333, 3033833690,
  606950555, 2643871638, 3117332866, 1509595561, 3633867969, 2660286881, 29087791, 3622946301,
  3716447930, 2285711453, 636563794, 1251109197, 2012341761, 2149902055, 44430653, 2621371609,
  2940222668, 3802989504, 1190000364, 1872483302, 3424955770, 1202694930, 2183761399, 1888263916]

/-- Entries 256..383 of the key table, in index order. -/
def TBL_2 : List Nat := [
  1996014001, 3012843986, 1058940633, 3783334887, 1458379853, 3385953016, 3894937102, 2445990446,
  1556871607, 4054143700, 1016939331, 3774908293, 719318719, 4177674400, 1023986919, 1114533808,
  1463588943, 329794478, 1080783929, 1667270105, 1342225050, 2907326379, 2936020365, 1100548014,
  408719254, 3857313101, 1635139891, 3547348375, 2895704262, 3687031676, 2247102660, 2420710962,
  4046330047, 3364656865, 3556497113, 3821177608, 3586066636, 2984740953, 625401295, 2955981312,
  2868717585, 1437740321, 3549164903, 1184660011, 1523603346, 2711984158, 2113635204, 886163978,
  2125519840, 3592216822, 964716727, 3862981919, 2511235911, 3827831344, 2961453153, 2802465384,
  3812685349, 1927069693, 2394468301, 414606879, 401562204, 809762, 1805727798, 1634067331,
  1950882907, 3849258769, 2725204004, 1609707104, 832956457, 2701741040, 3330337900, 2364745687,
  3958453386, 1780645167, 1946571140, 2381730066, 733808110, 3838840534, 696315418, 1793186419,
  3896906970, 1821968043, 3482190555, 3547479703, 2465623215, 2894369223, 2932233878, 3112802255,
  4195796834, 1836303967, 542974630, 1305717413, 770403264, 2671208556, 1906649131, 929806816,
  2147428891, 3731331119, 2629776334, 778939191, 1848911033, 249643964, 2200592601, 3143838177,
  334937853, 1499855748, 4127925052, 1030312323, 1127359649, 3050949349, 2185599915, 2669785873,
  2943111751, 3024597306, 2066118339, 3280566733, 2233904677, 3310398811, 1750112679, 1709818557,
  3855014966, 3775608745, 2281793656, 3464615140, 618069120, 1090917677, 1833918352, 3302782142]

/-- Entries 384..511 of the key table, in index order. -/
def TBL_3 : List Nat := [
  3678955372, 1823828407, 4089403791, 69929177, 46969566, 2969923429, 1201228532, 4195621796,
  2474027822, 128411447, 1978132220, 1151172769, 62334365, 4141823370, 1517671865, 1193830691,
  991572207, 4005444970, 2645666304, 8032473, 610693233, 27030479, 1761844173, 2509244228,
  1696117227, 1761997314, 3996733874, 3779198121, 2038409266, 1519773019, 3592829717, 1533146004,
  2306525980, 6259625, 574754673, 4103411566, 2115211069, 328393604, 926676906, 2387683350,
  2841686986, 74766156, 4289517271, 787869086, 1620650666, 2120814233, 599815325, 3638726917,
  1432181001, 358816766, 2795264540, 1343231946, 2571337800, 947075783, 3867337416, 3563413462,
  2507033604, 880670275, 793450363, 2481797796, 2810060245, 2061850370, 3534041049, 4018905484,
  3084108270, 2155395725, 2874845915, 1965809807, 109785537, 126529084, 2858058563, 306025064,
  753593923, 2394796601, 1694650867, 76035656, 2355290414, 313729383, 3843108506, 268445000,
  1048215949, 125719335, 4047555617, 1827133277, 2610559397, 840266780, 3064650670, 1938254044,
  2191750191, 1985048608, 3716623064, 2634613426, 2098883332, 1228412306, 1671844517, 202761766,
  3794759894, 31998853, 2996691252, 549781518, 3915510851, 758212142, 1021754408, 888790420,
  4198882899, 1232439485, 2489852251, 125303388, 1869681856, 3773310612, 3828816262, 1460743650,
  3771384457, 4070821600, 1782702521, 3217991549, 4180147538, 1769242008, 3198643419, 2379453783,
  81485518, 705201608, 1004857582, 567772636, 165575694, 844687923, 1368533378, 4002271268]

/-- Entries 512..639 of the key table, in index order. -/
def TBL_4 : List Nat := [
  1039570525, 817963899, 4160120938, 2678890886, 2084569206, 2242703242, 4105622048, 3720562716,
  1134472900, 1903935075, 2186934951, 3598892392, 2469037584, 952044159, 1645404871, 2297311592,
  3015864391, 1630784286, 355030278, 1525047878, 488672733, 2837265850, 3272971917, 1789027915,
  1902972106, 2300528982, 2156293119, 3176581191, 2425569882, 685612679, 2230271496, 1762281942,
  1786707842, 2882528256, 1027335626, 941319436, 1266452002, 1040336627, 2740328020, 2491975260,
  988748786, 1583179938, 3543080412, 1368861680, 393879867, 1184069058, 929303504, 4231210184,
  118037001, 761517051, 559149091, 1210202229, 1638225958, 2350081336, 1240931736, 2227688734,
  2236947059, 332793029, 3607209510, 2277000394, 1948168861, 707565436, 3348613635, 1816167895,
  766310299, 1934598891, 3425240407, 4196300260, 112368167, 3201182330, 1889817931, 3375731758,
  2808396737, 535007702, 2013786306, 1080061657, 3843371142, 3911024082, 3982310313, 2853484106,
  2209500633, 3961517517, 3123964627, 3840897884, 3154519096, 3636450595, 1195187716, 537393319,
  2955477997, 2263517914, 2511038927, 4246706185, 2629032123, 1374968152, 2631746166, 3259336286,
  2399961963, 1323817991, 4130770333, 4012645825, 3998659915, 3177369135, 4103170733, 3357324692,
  1098030921, 616493220, 3740567465, 573441464, 2369516998, 297095177, 2903102131, 433823697,
  3611455621, 870055051, 1382781816, 2030967752, 2996406784, 2774800131, 108450377, 1804699084,
  820262031, 2193960805, 1472715812, 1218191053, 2680860714, 1456869655, 4270234796, 1442599232]

/-- Entries 640..767 of the key table, in index order. -/
def TBL_5 : List Nat := [
  2143007618, 2656763001, 268729497, 4238301572, 1448640045, 3112276976, 2566807182, 699489131,
  2506223701, 3138169381, 508480533, 603273531, 138785880, 3472844746, 2962853900, 11621967,
  971961297, 4240555908, 2894631861, 1686421262, 2445290163, 2349599856, 1752148166, 3782328022,
  3752736735, 3584140519, 3823847841, 1583355104, 542843308, 4250448858, 779880397, 4012689498,
  3612900166, 4095181949, 2318454465, 1889029996, 4038472584, 3256928653, 3991284022, 2462099379,
  519270888, 537261999, 2443473509, 2966377732, 3573590952, 3411823571, 2604387267, 3479585973,
  3465840879, 4180334, 2856460847, 1212478416, 1303944567, 141040302, 1714371112, 1981108955,
  502767994, 2482957722, 3427363407, 2719469517, 1000589616, 646938231, 127382689, 2347498577,
  109654212, 382235874, 3259161124, 4213350262, 2692307714, 1755299894, 396834610, 3524979712,
  2885723794, 1528921880, 2923566628, 734026944, 1220664186, 1330537396, 375910478, 872550292,
  2536187221, 2584163675, 23484784, 2109082735, 987172923, 1547504064, 4003715802, 2294422544,
  270808791, 1782264832, 3948035148, 4221032598, 2521610347, 3716644920, 86628941, 185886885,
  410229448, 4159858280, 4132390001, 1544877507, 1151369723, 967605815, 2316812907, 2257542759,
  959551373, 1860139031, 1230097511, 2486437875, 3428742287, 729737001, 3417514224, 301910247,
  4241475160, 54870868, 926589420, 492371610, 105320622, 2827657402, 3515064894, 1087459491,
  4113676497, 2816057221, 293833941, 2979947699, 1030202857, 2955696838, 2579085800, 1277176698]

/-- Entries 768..895 of the key table, in index order. -/
def TBL_6 : List Nat := [
  368206291, 2823564557, 1358005670, 867844565, 964235283, 1269822542, 4008618524, 3762848532,
  1436339499, 2701456453, 1668233156, 642604603, 1975615285, 1967276337, 3138475833, 1962833242,
  2100984486, 764143492, 2213352778, 4230378456, 1155353215, 2030398664, 2194442289, 2637962108,
  3913628666, 607213204, 1713320531, 1968480092, 3140183021, 1742736790, 4102645447, 226224726,
  3261043439, 2840045469, 3729448815, 2886665026, 3555402859, 2762609038, 1010723398, 1165968449,
  2768912495, 1817218463, 3920369895, 516797626, 967605818, 2142438650, 1866004712, 1257040493,
  1627610739, 2171635975, 3955257861, 2432529940, 3039633791, 1817043349, 500469892, 1693337644,
  2496111905, 1410075096, 1977585109, 1094791671, 915996022, 4152679247, 4173953539, 76495289,
  1005908157, 2360674706, 2606291438, 3853220300, 2589941842, 3180695984, 4208075563, 1516446292,
  42395160, 2329135351, 3825598838, 1967932951, 1544571147, 1870491647, 562541610, 1467287899,
  49596003, 1516096006, 4266316999, 1407295357, 1509902005, 3166972837, 4247734935, 3201751301,
  2506267499, 564248795, 2853221469, 3874450776, 680709965, 2683137040, 507014135, 2615199464,
  724506095, 435530875, 2063535730, 836392815, 807742644, 1467572396, 376348250, 2838973025,
  1899404438, 2146969262, 3893842726, 3401317683, 26286350, 1771912254, 917768994, 3012887827,
  2609421306, 2771013639, 2888372205, 994986575, 3075725526, 1012080418, 1479500839, 2848822185,
  1416509870, 607103698, 3537958727, 167129693, 1507100441, 2910762606, 3578865784, 1457438621]

/-- Entries 896..1023 of the key table, in index order. -/
def TBL_7 : List Nat := [
  1359472037, 4055894692, 2169293992, 1611501808, 2615768601, 2438964722, 727066845, 2738708314,
  1499330497, 1768300893, 1357677367, 4057076594, 249753339, 2912841911, 2869768164, 3475471197,
  1649957420, 2203744324, 1957821035, 1236991957, 782878820, 311628200, 3187284071, 2211076503,
  2635970329, 2226878950, 2654968306, 826237185, 463021147, 3512569778, 3472428929, 692397709,
  3686593907, 2969704582, 2665999389, 486024439, 2125082162, 1774232245, 1955873180, 3797145555,
  1222262034, 1169732977, 3679261818, 3626864094, 643633314, 2963729306, 2115802022, 922627910,
  3702352640, 88314257, 2966312068, 1641136905, 2376477187, 114359855, 3133594940, 3391096563,
  2200023471, 68265715, 3901853356, 564314450, 2445333839, 1789531386, 3710035008, 2295013493,
  2051979283, 1739563121, 3638135964, 837881159, 1878108328, 799731873, 1218585019, 1004967051,
  2860115867, 245835660, 2050512879, 1236794965, 3575429425, 68944269, 12125441, 1172994177,
  2411846607, 3087741609, 2880230121, 1736170560, 3970753858, 1835341035, 834707447, 1584143037,
  473505039, 245200881, 1897478445, 1810477242, 1637153399, 1172709704, 1109609202, 3273891174,
  2476522940, 1444941212, 1797739016, 1729011, 3435308358, 1265773536, 3995464375, 1837551518,
  2859196621, 1305323446, 2027203091, 921336537, 1059706624, 3739889028, 1785394621, 414169116,
  3638880060, 2326202554, 1703646425, 2792769420, 3483438114, 626605172, 2375426613, 1603797616,
  1039592384, 2390594298, 3287176673, 3589743687, 45152917, 1387312416, 1892860191, 980409708]

/-- Entries 1024..1151 of the key table, in index order. -/
def TBL_8 : List Nat := [
  423274136, 1419179989, 1107858203, 2051081964, 2213046336, 4103827340, 3124599377, 1442139613,
  769987442, 2600163099, 984830982, 2909077279, 3346490622, 2139505766, 1097702612, 2722665080,
  3809183460, 189936054, 3127357142, 3853198439, 1610779536, 496902342, 712796458, 1802050779,
  2656172055, 2608217580, 1026110015, 3487640424, 1967867291, 2720235591, 3653588244, 1809645505,
  1765696320, 2184724455, 420932191, 3967536473, 1927157338, 3885635095, 2395497012, 2834354820,
  550044198, 2079950980, 681935665, 1053031022, 1289783643, 3277042896, 871302735, 568713744,
  3367721117, 3898460850, 2892333727, 2814350032, 94771021, 631573550, 3855058807, 1031078431,
  1269472408, 599640196, 2522069975, 3135039477, 3263407236, 3225476910, 2473633857, 791765026,
  921621041, 2888612876, 331392155, 3453036951, 134123954, 3447630797, 738273053, 407055864,
  1503423431, 1978219866, 3061477090, 2389937686, 4287656957, 2943812202, 4168000252, 2437979811,
  866618822, 1333338954, 980759996, 892992689, 822341202, 1332682345, 1806953404, 1287091541,
  2379344281, 719209373, 290594734, 3108840773, 2380176061, 420034879, 3079840317, 1956398427,
  3048607532, 939809230, 229464096, 2972746843, 689749330, 3734657975, 1373567329, 1364943880,
  3396239934, 942567028, 4005444977, 1284443242, 3866549482, 350346364, 1870644788, 3481643331,
  3550390638, 326007955, 1902424836, 4079948595, 901988404, 3728332577, 2443736121, 3289387295,
  703691436, 320251647, 317822190, 1108055193, 4146966748, 1762369427, 399592370, 2408782520]

/-- Entries 1152..1279 of the key table, in index order. -/
def TBL_9 : List Nat := [
  561316028, 2270434296, 2561860669, 3307181425, 1422835146, 119131257, 4089907213, 3827853169,
  2750067661, 1248526560, 298780505, 2122937209, 1530038124, 1586287862, 216922724, 2442838727,
  2987717555, 243909516, 4039391801, 3940615458, 2203831814, 2666283970, 3928402390, 1767053345,
  1730523722, 3665932514, 3585388083, 135240187, 363347375, 702531360, 2447478799, 672546136,
  2211514274, 1319900314, 2675038744, 1641399546, 3819645535, 3350255167, 3016521002, 1642844086,
  654292266, 3984105023, 2856044888, 1163560840, 3384836777, 169602830, 3264895614, 353191733,
  2486700512, 1763792144, 4010479017, 995008435, 3635793996, 3349160872, 2966749832, 1686246261,
  3261130959, 2224471340, 4283388981, 263542284, 2094484050, 2472057984, 2291620935, 2210244765,
  2345419414, 28847137, 4253162943, 642911047, 77086233, 3554789927, 2016172047, 846198131,
  3243752647, 1331587972, 1156316155, 3659979224, 1826214030, 387576280, 1901855879, 741162130,
  1408936873, 3162726726, 1359778518, 3767138346, 1182799647, 916390110, 1894523697, 237321557,
  3673921303, 3856503341, 2509331745, 2686463894, 2707541063, 3939477233, 3982397833, 3669522052,
  2763484490, 4201662615, 1662980282, 3550324985, 1572126948, 385737770, 771716480, 3044011134,
  3288314736, 2389653180, 1620563033, 1364024630, 2779199458, 964147635, 4247888074, 2419288283,
  3895922017, 2551223584, 2917285036, 2583178756, 1105100451, 2225193621, 152640480, 814943490,
  480224330, 3288774359, 4007436626, 1632207004, 2953420532, 3321254821, 1276147981, 1929586796]

/-- The contents of the `lazy_static` `CRYPTO_TABLE` of `crypto.rs`, in
literal form (split into ten 128-entry chunks) so that proofs can evaluate
lookups cheaply; `crypto_table_eq` proves it equals `generate_crypto_table`. -/
def CRYPTO_TABLE : List Nat :=
  TBL_0 ++ (TBL_1 ++ (TBL_2 ++ (TBL_3 ++ (TBL_4 ++
    (TBL_5 ++ (TBL_6 ++ (TBL_7 ++ (TBL_8 ++ TBL_9))))))))

/-- The key-table cells in the order the generation loop produces them
(cell `p` holds table index `p / 5 + p % 5 * 256`). -/
def CRYPTO_CELLS : List Nat :=
  CELLS_0 ++ (CELLS_1 ++ (CELLS_2 ++ (CELLS_3 ++ (CELLS_4 ++
    (CELLS_5 ++ (CELLS_6 ++ (CELLS_7 ++ (CELLS_8 ++ CELLS_9))))))))

/-- The stream of key-table cells generated from LCG state `s`. -/
def tableCells : Nat → Nat → List Nat
  | 0, _ => []
  | n + 1, s => entryFromSeed s :: tableCells n (lcgNext (lcgNext s))

/-- Rearrangement of the cell stream into table-index order: entry `x` of
the result is cell `5 * (x % 256) + x / 256`. -/
def tableFromCells (cells : List Nat) : Nat → Nat → List Nat
  | _, 0 => []
  | x, n + 1 => cells.getD (5 * (x % 256) + x / 256) 0 :: tableFromCells cells (x + 1) n

theorem tableCells_append (m n s : Nat) :
    tableCells (m + n) s = tableCells m s ++ tableCells n (lcgNext^[2 * m] s) := by
  induction m generalizing s with
  | zero => simp [tableCells]
  | succ k ih =>
    rw [show k + 1 + n = (k + n) + 1 from by omega]
    show entryFromSeed s :: tableCells (k + n) (lcgNext (lcgNext s)) = _
    rw [ih (lcgNext (lcgNext s))]
    rw [show lcgNext (lcgNext s) = lcgNext^[2] s from rfl, ← Function.iterate_add_apply]
    rw [show 2 * k + 2 = 2 * (k + 1) from by omega]
    rfl

theorem tableFromCells_append (cells : List Nat) (x m n : Nat) :
    tableFromCells cells x (m + n) =
      tableFromCells cells x m ++ tableFromCells cells (x + m) n := by
  induction m generalizing x with
  | zero => simp [tableFromCells]
  | succ k ih =>
    rw [show k + 1 + n = (k + n) + 1 from by omega]
    show _ :: tableFromCells cells (x + 1) (k + n) = _
    rw [ih (x + 1)]
    rw [show x + 1 + k = x + (k + 1) from by omega]
    rfl

theorem tableCells_getD (n : Nat) :
    ∀ p s, p < n → (tableCells n s).getD p 0 = entryFromSeed (lcgNext^[2 * p] s) := by
  induction n with
  | zero => intro p s h; omega
  | succ k ih =>
    intro p s h
    cases p with
    | zero => rfl
    | succ q =>
      show (tableCells k (lcgNext (lcgNext s))).getD q 0 = _
      rw [ih q (lcgNext (lcgNext s)) (by omega)]
      rw [show lcgNext (lcgNext s) = lcgNext^[2] s from rfl, ← Function.iterate_add_apply]
      rw [show 2 * q + 2 = 2 * (q + 1) from by omega]

theorem tableFromCells_getD (cells : List Nat) (n : Nat) :
    ∀ p x, p < n → (tableFromCells cells x n).getD p 0 =
      cells.getD (5 * ((x + p) % 256) + (x + p) / 256) 0 := by
  induction n with
  | zero => intro p x h; omega
  | succ k ih =>
    intro p x h
    cases p with
    | zero => rfl
    | succ q =>
      show (tableFromCells cells (x + 1) k).getD q 0 = _
      rw [ih q (x + 1) (by omega)]
      rw [show x + 1 + q = x + (q + 1) from by omega]

set_option maxRecDepth 4000 in
theorem lcg_seed_1 : lcgNext^[256] 1048577 = 2509142 := by decide

set_option maxRecDepth 4000 in
theorem lcg_seed_2 : lcgNext^[256] 2509142 = 489108 := by decide

set_option maxRecDepth 4000 in
theorem lcg_seed_3 : lcgNext^[256] 489108 = 2640139 := by decide

set_option maxRecDepth 4000 in
theorem lcg_seed_4 : lcgNext^[256] 2640139 = 1204441 := by decide

set_option maxRecDepth 4000 in
theorem lcg_seed_5 : lcgNext^[256] 1204441 = 1055416 := by decide

set_option maxRecDepth 4000 in
theorem lcg_seed_6 : lcgNext^[256] 1055416 = 1287399 := by decide

set_option maxRecDepth 4000 in
theorem lcg_seed_7 : lcgNext^[256] 1287399 = 810189 := by decide

set_option maxRecDepth 4000 in
theorem lcg_seed_8 : lcgNext^[256] 810189 = 1554737 := by decide

set_option maxRecDepth 4000 in
theorem lcg_seed_9 : lcgNext^[256] 1554737 = 2079784 := by decide

set_option maxRecDepth 4000 in
theorem lcg_seed_10 : lcgNext^[256] 2079784 = 927852 := by decide

set_option maxRecDepth 4000 in
theorem cells_chunk_0 : tableCells 128 1048577 = CELLS_0 := by decide

set_option maxRecDepth 4000 in
theorem cells_chunk_1 : tableCells 128 2509142 = CELLS_1 := by decide

set_option maxRecDepth 4000 in
theorem cells_chunk_2 : tableCells 128 489108 = CELLS_2 := by decide

set_option maxRecDepth 4000 in
theorem cells_chunk_3 : tableCells 128 2640139 = CELLS_3 := by decide

set_option maxRecDepth 4000 in
theorem cells_chunk_4 : tableCells 128 1204441 = CELLS_4 := by decide

set_option maxRecDepth 4000 in
theorem cells_chunk_5 : tableCells 128 1055416 = CELLS_5 := by decide

set_option maxRecDepth 4000 in
theorem cells_chunk_6 : tableCells 128 1287399 = CELLS_6 := by decide

set_option maxRecDepth 4000 in
theorem cells_chunk_7 : tableCells 128 810189 = CELLS_7 := by decide

set_option maxRecDepth 4000 in
theorem cells_chunk_8 : tableCells 128 1554737 = CELLS_8 := by decide

set_option maxRecDepth 4000 in
theorem cells_chunk_9 : tableCells 128 2079784 = CELLS_9 := by decide

set_option maxRecDepth 4000 in
theorem tbl_chunk_0 : tableFromCells CRYPTO_CELLS 0 128 = TBL_0 := by decide

set_option maxRecDepth 4000 in
theorem tbl_chunk_1 : tableFromCells CRYPTO_CELLS 128 128 = TBL_1 := by decide

set_option maxRecDepth 4000 in
theorem tbl_chunk_2 : tableFromCells CRYPTO_CELLS 256 128 = TBL_2 := by decide

set_option maxRecDepth 4000 in
theorem tbl_chunk_3 : tableFromCells CRYPTO_CELLS 384 128 = TBL_3 := by decide

set_option maxRecDepth 4000 in
theorem tbl_chunk_4 : tableFromCells CRYPTO_CELLS 512 128 = TBL_4 := by decide

set_option maxRecDepth 4000 in
theorem tbl_chunk_5 : tableFromCells CRYPTO_CELLS 640 128 = TBL_5 := by decide

set_option maxRecDepth 4000 in
theorem tbl_chunk_6 : tableFromCells CRYPTO_CELLS 768 128 = TBL_6 := by decide

set_option maxRecDepth 4000 in
theorem tbl_chunk_7 : tableFromCells CRYPTO_CELLS 896 128 = TBL_7 := by decide

set_option maxRecDepth 4000 in
theorem tbl_chunk_8 : tableFromCells CRYPTO_CELLS 1024 128 = TBL_8 := by decide

set_option maxRecDepth 4000 in
theorem tbl_chunk_9 : tableFromCells CRYPTO_CELLS 1152 128 = TBL_9 := by decide

theorem cells_glue : tableCells 1280 1048577 = CRYPTO_CELLS := by
  rw [show tableCells 1280 1048577 = tableCells 128 1048577 ++ tableCells 1152 (lcgNext^[256] 1048577) from tableCells_append 128 1152 1048577,
    lcg_seed_1, cells_chunk_0]
  rw [show tableCells 1152 2509142 = tableCells 128 2509142 ++ tableCells 1024 (lcgNext^[256] 2509142) from tableCells_append 128 1024 2509142,
    lcg_seed_2, cells_chunk_1]
  rw [show tableCells 1024 489108 = tableCells 128 489108 ++ tableCells 896 (lcgNext^[256] 489108) from tableCells_append 128 896 489108,
    lcg_seed_3, cells_chunk_2]
  rw [show tableCells 896 2640139 = tableCells 128 2640139 ++ tableCells 768 (lcgNext^[256] 2640139) from tableCells_append 128 768 2640139,
    lcg_seed_4, cells_chunk_3]
  rw [show tableCells 768 1204441 = tableCells 128 1204441 ++ tableCells 640 (lcgNext^[256] 1204441) from tableCells_append 128 640 1204441,
    lcg_seed_5, cells_chunk_4]
  rw [show tableCells 640 1055416 = tableCells 128 1055416 ++ tableCells 512 (lcgNext^[256] 1055416) from tableCells_append 128 512 1055416,
    lcg_seed_6, cells_chunk_5]
  rw [show tableCells 512 1287399 = tableCells 128 1287399 ++ tableCells 384 (lcgNext^[256] 1287399) from tableCells_append 128 384 1287399,
    lcg_seed_7, cells_chunk_6]
  rw [show tableCells 384 810189 = tableCells 128 810189 ++ tableCells 256 (lcgNext^[256] 810189) from tableCells_append 128 256 810189,
    lcg_seed_8, cells_chunk_7]
  rw [show tableCells 256 1554737 = tableCells 128 1554737 ++ tableCells 128 (lcgNext^[256] 1554737) from tableCells_append 128 128 1554737,
    lcg_seed_9, cells_chunk_8]
  rw [cells_chunk_9]
  rfl

theorem tbl_glue : tableFromCells CRYPTO_CELLS 0 1280 = CRYPTO_TABLE := by
  rw [show tableFromCells CRYPTO_CELLS 0 1280 = tableFromCells CRYPTO_CELLS 0 128 ++ tableFromCells CRYPTO_CELLS 128 1152 from tableFromCells_append CRYPTO_CELLS 0 128 1152,
    tbl_chunk_0]
  rw [show tableFromCells CRYPTO_CELLS 128 1152 = tableFromCells CRYPTO_CELLS 128 128 ++ tableFromCells CRYPTO_CELLS 256 1024 from tableFromCells_append CRYPTO_CELLS 128 128 1024,
    tbl_chunk_1]
  rw [show tableFromCells CRYPTO_CELLS 256 1024 = tableFromCells CRYPTO_CELLS 256 128 ++ tableFromCells CRYPTO_CELLS 384 896 from tableFromCells_append CRYPTO_CELLS 256 128 896,
    tbl_chunk_2]
  rw [show tableFromCells CRYPTO_CELLS 384 896 = tableFromCells CRYPTO_CELLS 384 128 ++ tableFromCells CRYPTO_CELLS 512 768 from tableFromCells_append CRYPTO_CELLS 384 128 768,
    tbl_chunk_3]
  rw [show tableFromCells CRYPTO_CELLS 512 768 = tableFromCells CRYPTO_CELLS 512 128 ++ tableFromCells CRYPTO_CELLS 640 640 from tableFromCells_append CRYPTO_CELLS 512 128 640,
    tbl_chunk_4]
  rw [show tableFromCells CRYPTO_CELLS 640 640 = tableFromCells CRYPTO_CELLS 640 128 ++ tableFromCells CRYPTO_CELLS 768 512 from tableFromCells_append CRYPTO_CELLS 640 128 512,
    tbl_chunk_5]
  rw [show tableFromCells CRYPTO_CELLS 768 512 = tableFromCells CRYPTO_CELLS 768 128 ++ tableFromCells CRYPTO_CELLS 896 384 from tableFromCells_append CRYPTO_CELLS 768 128 384,
    tbl_chunk_6]
  rw [show tableFromCells CRYPTO_CELLS 896 384 = tableFromCells CRYPTO_CELLS 896 128 ++ tableFromCells CRYPTO_CELLS 1024 256 from tableFromCells_append CRYPTO_CELLS 896 128 256,
    tbl_chunk_7]
  rw [show tableFromCells CRYPTO_CELLS 1024 256 = tableFromCells CRYPTO_CELLS 1024 128 ++ tableFromCells CRYPTO_CELLS 1152 128 from tableFromCells_append CRYPTO_CELLS 1024 128 128,
    tbl_chunk_8]
  rw [tbl_chunk_9]
  rfl

theorem crypto_cells_getD (p : Nat) (hp : p < 1280) :
    CRYPTO_CELLS.getD p 0 = entryFromSeed (lcgNext^[2 * p] 1048577) := by
  rw [← cells_glue]
  exact tableCells_getD 1280 p _ hp

theorem crypto_table_getD (x : Nat) (hx : x < 1280) :
    CRYPTO_TABLE.getD x 0 =
      entryFromSeed (lcgNext^[2 * (5 * (x % 256) + x / 256)] 1048577) := by
  rw [← tbl_glue]
  have h := tableFromCells_getD CRYPTO_CELLS 1280 x 0 hx
  rw [show (0 : Nat) + x = x from by omega] at h
  rw [h]
  exact crypto_cells_getD _ (by omega)

set_option maxRecDepth 100000 in
theorem crypto_table_length : CRYPTO_TABLE.length = 1280 := by decide

theorem generate_crypto_table_getD (i j : Nat) (hi : i < 256) (hj : j < 5) :
    generate_crypto_table.getD (i + j * 256) 0 =
      entryFromSeed (lcgNext^[2 * (5 * i + j)] 1048577) := by
  have h := (crypto_outer_inv 256 le_rfl).2.2 i j hi hj
  rw [if_pos hi] at h
  exact h

theorem generate_crypto_table_length : generate_crypto_table.length = 1280 :=
  (crypto_outer_inv 256 le_rfl).2.1

/-- The literal table is exactly the generated one. -/
theorem crypto_table_eq : generate_crypto_table = CRYPTO_TABLE := by
  refine list_ext_getD 0 _ _ ?_ ?_
  · rw [generate_crypto_table_length, crypto_table_length]
  · intro x hx
    have hx' : x < 1280 := by rwa [generate_crypto_table_length] at hx
    calc generate_crypto_table.getD x 0
        = generate_crypto_table.getD (x % 256 + x / 256 * 256) 0 := by
          rw [show x % 256 + x / 256 * 256 = x from by omega]
      _ = entryFromSeed (lcgNext^[2 * (5 * (x % 256) + x / 256)] 1048577) :=
          generate_crypto_table_getD _ _ (by omega) (by omega)
      _ = CRYPTO_TABLE.getD x 0 := (crypto_table_getD x hx').symm

/-- Lookup in the shared `CRYPTO_TABLE` (`CRYPTO_TABLE[i]`; all the code's
accesses are in range). -/
def cryptoTableGet (i : Nat) : Nat := CRYPTO_TABLE.getD i 0


/-! ## Hash functions (`crypto.rs`) -/

/-- Modelled from the spec: the "slash" ASCII fold (the `ASCII_UPPER_LOOKUP`
table of the missing `consts.rs`), which upper-cases ASCII letters and maps
both `/` (47) and `\\` (92) to `\\` (spec §4.1). -/
def asciiUpperSlash (b : Nat) : Nat :=
  if 97 ≤ b ∧ b ≤ 122 then b - 32 else if b = 47 then 92 else b

/-- Modelled from the spec: the "noslash" ASCII fold
(`ASCII_UPPER_LOOKUP_NOSLASH`), which upper-cases ASCII letters and leaves
`/` alone (spec §4.1). -/
def asciiUpperNoslash (b : Nat) : Nat :=
  if 97 ≤ b ∧ b ≤ 122 then b - 32 else b

/-- Modelled from the spec: hash-kind selector `0x000` (table index). -/
def MPQ_HASH_TABLE_INDEX : Nat := 0x000

/-- Modelled from the spec: hash-kind selector `0x100` (name A). -/
def MPQ_HASH_NAME_A : Nat := 0x100

/-- Modelled from the spec: hash-kind selector `0x200` (name B). -/
def MPQ_HASH_NAME_B : Nat := 0x200

/-- Modelled from the spec: hash-kind selector `0x300` (file key). -/
def MPQ_HASH_FILE_KEY : Nat := 0x300

/-- Modelled from the spec: table region `0x400` used by the block cipher
(`T[0x400 + (key & 0xFF)]`). -/
def MPQ_HASH_KEY2_MIX : Nat := 0x400

/-- One iteration of the loop of `hash_string_with_table` (`crypto.rs`);
the state is `(seed1, seed2)`, all additions wrap modulo `2^32`. -/
def hashStep (lookup : Nat → Nat) (hashType : Nat) (st : Nat × Nat) (b : Nat) : Nat × Nat :=
  let upper := lookup b
  let seed1 := Nat.xor (cryptoTableGet (hashType + upper)) ((st.1 + st.2) % M32)
  let seed2 := (upper + seed1 + st.2 + (st.2 <<< 5) % M32 + 3) % M32
  (seed1, seed2)

/-- `hash_string_with_table` from `crypto.rs`: fold `hashStep` over the
input bytes from `seed1 = 0x7FED7FED`, `seed2 = 0xEEEEEEEE`, return `seed1`. -/
def hash_string_with_table (source : List Nat) (hashType : Nat) (lookup : Nat → Nat) : Nat :=
  (source.foldl (hashStep lookup hashType) (0x7FED7FED, 0xEEEEEEEE)).1

/-- `hash_string` from `crypto.rs` (uses the slash fold). -/
def hash_string (source : List Nat) (hashType : Nat) : Nat :=
  hash_string_with_table source hashType asciiUpperSlash

/-- `hash_string_noslash` from `crypto.rs` (uses the noslash fold). -/
def hash_string_noslash (source : List Nat) (hashType : Nat) : Nat :=
  hash_string_with_table source hashType asciiUpperNoslash

/-- The bytes of the string `"(hash table)"`. -/
def hashTableKeyName : List Nat := [40, 104, 97, 115, 104, 32, 116, 97, 98, 108, 101, 41]

/-- The bytes of the string `"(block table)"`. -/
def blockTableKeyName : List Nat := [40, 98, 108, 111, 99, 107, 32, 116, 97, 98, 108, 101, 41]

/-- Modelled from the spec: `HASH_TABLE_KEY = hash("(hash table)", 0x300)`
(missing `consts.rs`, spec §4.2). -/
def HASH_TABLE_KEY : Nat := hash_string hashTableKeyName MPQ_HASH_FILE_KEY

/-- Modelled from the spec: `BLOCK_TABLE_KEY = hash("(block table)", 0x300)`. -/
def BLOCK_TABLE_KEY : Nat := hash_string blockTableKeyName MPQ_HASH_FILE_KEY

set_option maxRecDepth 40000 in
/-- Golden vector of spec §8: the hash-table key. -/
theorem hash_table_key_value : HASH_TABLE_KEY = 0xC3AF3770 := by decide

set_option maxRecDepth 40000 in
/-- Golden vector of spec §8: the block-table key. -/
theorem block_table_key_value : BLOCK_TABLE_KEY = 0xEC83B3A3 := by decide

/-! ## Block cipher (`crypto.rs`, `decrypt_mpq_block`) -/

/-- The word loop of `decrypt_mpq_block` (`crypto.rs`): state is
`(key, key_secondary)`; `temp` is the post-XOR (decrypted) word. -/
def decryptWords (key key2 : Nat) : List Nat → List Nat
  | [] => []
  | w :: rest =>
    let key2a := (key2 + cryptoTableGet (MPQ_HASH_KEY2_MIX + Nat.land key 0xFF)) % M32
    let w1 := Nat.xor w ((key + key2a) % M32)
    let keyN := Nat.lor (((Nat.xor key 0xFFFFFFFF <<< 0x15) % M32 + 0x11111111) % M32)
      (key >>> 0x0B)
    let key2N := (w1 + key2a + (key2a <<< 5) % M32 + 3) % M32
    w1 :: decryptWords keyN key2N rest

/-- Modelled from the spec: the word loop of the missing
`encrypt_mpq_block`; identical to decryption except that `temp` is the
pre-XOR (plaintext) word (spec §4.1). -/
def encryptWords (key key2 : Nat) : List Nat → List Nat
  | [] => []
  | w :: rest =>
    let key2a := (key2 + cryptoTableGet (MPQ_HASH_KEY2_MIX + Nat.land key 0xFF)) % M32
    let w1 := Nat.xor w ((key + key2a) % M32)
    let keyN := Nat.lor (((Nat.xor key 0xFFFFFFFF <<< 0x15) % M32 + 0x11111111) % M32)
      (key >>> 0x0B)
    let key2N := (w + key2a + (key2a <<< 5) % M32 + 3) % M32
    w1 :: encryptWords keyN key2N rest

/-- `decrypt_mpq_block` from `crypto.rs`: operate on the aligned prefix as
little-endian `u32` words with initial `key_secondary = 0xEEEEEEEE`; the
trailing `len % 4` bytes are not encrypted. -/
def decrypt_mpq_block (data : List Nat) (key : Nat) : List Nat :=
  wordsToBytes (decryptWords key 0xEEEEEEEE (bytesToWords data)) ++ trailingBytes data

/-- Modelled from the spec: the missing `encrypt_mpq_block` (spec §4.1). -/
def encrypt_mpq_block (data : List Nat) (key : Nat) : List Nat :=
  wordsToBytes (encryptWords key 0xEEEEEEEE (bytesToWords data)) ++ trailingBytes data

/-- XOR by the same word twice is the identity (stated on `Nat.xor`). -/
theorem nat_xor_cancel (a b : Nat) : Nat.xor (Nat.xor a b) b = a := Nat.xor_cancel_right b a

theorem decryptWords_encryptWords :
    ∀ (ws : List Nat) (key key2 : Nat),
      decryptWords key key2 (encryptWords key key2 ws) = ws := by
  intro ws
  induction ws with
  | nil => intro key key2; rfl
  | cons w rest ih =>
    intro key key2
    show decryptWords key key2 (Nat.xor w _ :: _) = w :: rest
    rw [decryptWords]
    rw [nat_xor_cancel]
    rw [ih]

/-- Byte values below 256 recombine to words below `2^32`. -/
theorem bytesToWords_lt :
    ∀ (data : List Nat), (∀ b ∈ data, b < 256) → ∀ w ∈ bytesToWords data, w < M32
  | [], _, w, hw => by simp [bytesToWords] at hw
  | [a], _, w, hw => by simp [bytesToWords] at hw
  | [a, b], _, w, hw => by simp [bytesToWords] at hw
  | [a, b, c], _, w, hw => by simp [bytesToWords] at hw
  | a :: b :: c :: d :: rest, hb, w, hw => by
    rw [bytesToWords] at hw
    rcases List.mem_cons.mp hw with h | h
    · have ha := hb a (by simp)
      have hbb := hb b (by simp)
      have hc := hb c (by simp)
      have hd := hb d (by simp)
      subst h
      unfold toU32LE M32
      omega
    · exact bytesToWords_lt rest (fun x hx => hb x (by simp [hx])) w h

/-- Encryption sends words below `2^32` to words below `2^32`. -/
theorem encryptWords_lt :
    ∀ (ws : List Nat) (key key2 : Nat), (∀ w ∈ ws, w < M32) →
      ∀ w ∈ encryptWords key key2 ws, w < M32 := by
  intro ws
  induction ws with
  | nil => intro key key2 _ w hw; simp [encryptWords] at hw
  | cons a rest ih =>
    intro key key2 hws w hw
    rw [encryptWords] at hw
    rcases List.mem_cons.mp hw with h | h
    · subst h
      have h1 : a < 2 ^ 32 := hws a (by simp)
      have h2 : (key + (key2 + cryptoTableGet (MPQ_HASH_KEY2_MIX + Nat.land key 0xFF)) % M32)
          % M32 < 2 ^ 32 := Nat.mod_lt _ (by norm_num [M32])
      have := Nat.xor_lt_two_pow h1 h2
      simpa [M32] using this
    · exact ih _ _ (fun x hx => hws x (by simp [hx])) w h

/-- Words below `2^32` survive the byte round trip. -/
theorem bytesToWords_wordsToBytes (ws : List Nat) (h : ∀ w ∈ ws, w < M32) :
    bytesToWords (wordsToBytes ws) = ws := by
  induction ws with
  | nil => rfl
  | cons w rest ih =>
    rw [wordsToBytes, bytesToWords]
    rw [ih (fun x hx => h x (by simp [hx]))]
    have hw := h w (by simp)
    have : toU32LE (w % 256) (w / 256 % 256) (w / 65536 % 256) (w / 16777216 % 256) = w := by
      unfold toU32LE
      unfold M32 at hw
      omega
    rw [this]

/-- Aligned byte buffers survive the word round trip. -/
theorem wordsToBytes_bytesToWords :
    ∀ (data : List Nat), data.length % 4 = 0 → (∀ b ∈ data, b < 256) →
      wordsToBytes (bytesToWords data) = data
  | [], _, _ => rfl
  | [a], h4, _ => by simp at h4
  | [a, b], h4, _ => by simp at h4
  | [a, b, c], h4, _ => by simp at h4
  | a :: b :: c :: d :: rest, h4, hb => by
    rw [bytesToWords, wordsToBytes]
    have ha := hb a (by simp)
    have hbb := hb b (by simp)
    have hc := hb c (by simp)
    have hd := hb d (by simp)
    have h1 : toU32LE a b c d % 256 = a := by unfold toU32LE; omega
    have h2 : toU32LE a b c d / 256 % 256 = b := by unfold toU32LE; omega
    have h3 : toU32LE a b c d / 65536 % 256 = c := by unfold toU32LE; omega
    have h4' : toU32LE a b c d / 16777216 % 256 = d := by unfold toU32LE; omega
    rw [h1, h2, h3, h4']
    rw [wordsToBytes_bytesToWords rest (by simp at h4 ⊢; omega)
      (fun x hx => hb x (by simp [hx]))]

/-- The per-word length of serialization. -/
theorem wordsToBytes_length (ws : List Nat) : (wordsToBytes ws).length = 4 * ws.length := by
  induction ws with
  | nil => rfl
  | cons w rest ih => rw [wordsToBytes]; simp [ih]; omega

/-- An aligned buffer has no trailing bytes. -/
theorem trailingBytes_aligned (data : List Nat) (h4 : data.length % 4 = 0) :
    trailingBytes data = [] := by
  unfold trailingBytes
  rw [show 4 * (data.length / 4) = data.length from by omega]
  simp

/-- The number of words in an aligned buffer. -/
theorem encryptWords_length :
    ∀ (ws : List Nat) (key key2 : Nat), (encryptWords key key2 ws).length = ws.length := by
  intro ws
  induction ws with
  | nil => intro _ _; rfl
  | cons w rest ih => intro key key2; rw [encryptWords]; simp [ih]

/-- C5: decrypting the block-cipher encryption of a buffer whose length is
a multiple of 4 under the same key restores the buffer
(`decode(encode(x, key), key) == x`). -/
theorem C5_cipher_roundtrip (data : List Nat) (key : Nat)
    (h4 : data.length % 4 = 0) (hb : ∀ b ∈ data, b < 256) :
    decrypt_mpq_block (encrypt_mpq_block data key) key = data := by
  unfold encrypt_mpq_block decrypt_mpq_block
  rw [trailingBytes_aligned data h4, List.append_nil]
  have henc_lt : ∀ w ∈ encryptWords key 0xEEEEEEEE (bytesToWords data), w < M32 :=
    encryptWords_lt _ _ _ (bytesToWords_lt data hb)
  rw [bytesToWords_wordsToBytes _ henc_lt]
  rw [trailingBytes_aligned _ (by rw [wordsToBytes_length]; omega), List.append_nil]
  rw [decryptWords_encryptWords]
  exact wordsToBytes_bytesToWords data h4 hb

set_option maxRecDepth 40000 in
/-- Witness for C5: the spec §8 golden vector, 16 zero bytes under key
`0x12345678`. -/
theorem C5_cipher_roundtrip_witness :
    (List.replicate 16 0).length % 4 = 0 ∧
      decrypt_mpq_block (encrypt_mpq_block (List.replicate 16 0) 0x12345678) 0x12345678 =
        List.replicate 16 0 :=
  ⟨by decide, C5_cipher_roundtrip _ 0x12345678 (by decide) (by decide)⟩

/-! ## C6: the key-table generation recipe -/

/-- The spec's LCG sequence (§4.1): `s₀ = 0x00100001`,
`s_{n+1} = (125 · s_n + 3) mod 0x2AAAAB`. -/
def lcgIter : Nat → Nat
  | 0 => 0x00100001
  | n + 1 => (125 * lcgIter n + 3) % 0x2AAAAB

theorem lcgIter_eq (n : Nat) : lcgIter n = lcgNext^[n] 0x00100001 := by
  induction n with
  | zero => rfl
  | succ k ih =>
    rw [Function.iterate_succ_apply', ← ih]
    show (125 * lcgIter k + 3) % 0x2AAAAB = (lcgIter k * 125 + 3) % 0x2AAAAB
    rw [Nat.mul_comm]

/-- C6: the 1,280-entry crypto table equals, entry for entry, the table
defined by seeding `s = 0x00100001`, iterating
`s = (125·s + 3) mod 0x2AAAAB`, and setting
`T[i + 256·j] = (s1 & 0xFFFF) << 16 | (s2 & 0xFFFF)` from two successive
LCG outputs, for each `i ∈ [0,256)` and `j ∈ [0,5)`; in particular
`T[0] = 0x55C636E2`. -/
theorem C6_crypto_table_generation :
    (∀ i, i < 256 → ∀ j, j < 5 →
      generate_crypto_table.getD (i + 256 * j) 0 =
        Nat.lor (Nat.land (lcgIter (2 * (5 * i + j) + 1)) 0xFFFF <<< 16)
          (Nat.land (lcgIter (2 * (5 * i + j) + 2)) 0xFFFF)) ∧
    generate_crypto_table.getD 0 0 = 0x55C636E2 := by
  have hpt : ∀ i j, i < 256 → j < 5 →
      generate_crypto_table.getD (i + 256 * j) 0 =
        Nat.lor (Nat.land (lcgIter (2 * (5 * i + j) + 1)) 0xFFFF <<< 16)
          (Nat.land (lcgIter (2 * (5 * i + j) + 2)) 0xFFFF) := by
    intro i j hi hj
    rw [Nat.mul_comm 256 j]
    rw [generate_crypto_table_getD i j hi hj]
    rw [lcgIter_eq, lcgIter_eq]
    rw [show 2 * (5 * i + j) + 2 = (2 * (5 * i + j) + 1) + 1 from by omega]
    simp only [Function.iterate_succ_apply']
    rfl
  constructor
  · intro i hi j hj
    exact hpt i j hi hj
  · have h := hpt 0 0 (by omega) (by omega)
    rw [show (0 : Nat) + 256 * 0 = 0 from rfl] at h
    rw [h]
    decide

/-- Witness for C6 at `i = 0`, `j = 0`. -/
theorem C6_crypto_table_generation_witness :
    (0 < 256 ∧ 0 < 5) ∧
      generate_crypto_table.getD (0 + 256 * 0) 0 =
        Nat.lor (Nat.land (lcgIter (2 * (5 * 0 + 0) + 1)) 0xFFFF <<< 16)
          (Nat.land (lcgIter (2 * (5 * 0 + 0) + 2)) 0xFFFF) :=
  ⟨⟨by decide, by decide⟩, C6_crypto_table_generation.1 0 (by decide) 0 (by decide)⟩

/-! ## C4: `sector_count_from_size` (`util.rs`) -/

/-- `sector_count_from_size` from `util.rs`:
`((size − 1) / sector_size) + 1` in `u64` arithmetic.  In release builds
the subtraction wraps modulo `2^64` when `size = 0` (debug builds panic);
the wrapping behaviour is modelled explicitly. -/
def sector_count_from_size (size sectorSize : Nat) : Nat :=
  ((size + M64 - 1) % M64 / sectorSize + 1) % M64

/-- C4: at `U = 0` (with `S = 512`) the subtraction in
`sector_count_from_size` underflows and the function returns `2^55`
sectors instead of the `0` the spec requires; debug builds panic on the
same input. -/
theorem C4_sector_count_zero_underflow :
    sector_count_from_size 0 512 = 36028797018963968 ∧
      (36028797018963968 : Nat) ≠ 0 := by
  constructor
  · decide
  · decide

/-! ## Errors and compression dispatch (`error.rs`, `crypto.rs`) -/

/-- The error enum of `error.rs` (`MpqError`). -/
inductive MpqError where
  | noHeader
  | ioError
  | unsupportedVersion
  | corrupted
  | fileNotFound
  | unsupportedCompression (kind : String)
deriving DecidableEq, Repr

/-- Modelled from the spec: compression flag `0x01` (Huffman). -/
def COMPRESSION_HUFFMAN : Nat := 0x01

/-- Modelled from the spec: compression flag `0x02` (DEFLATE/zlib). -/
def COMPRESSION_ZLIB : Nat := 0x02

/-- Modelled from the spec: compression flag `0x08` (PKWare DCL). -/
def COMPRESSION_PKWARE : Nat := 0x08

/-- Modelled from the spec: compression flag `0x10` (BZIP2). -/
def COMPRESSION_BZIP2 : Nat := 0x10

/-- Modelled from the spec: compression flag `0x40` (IMA ADPCM mono; the
source names the constant `COMPRESSION_IMA_ADCPM_MONO`). -/
def COMPRESSION_IMA_ADCPM_MONO : Nat := 0x40

/-- Modelled from the spec: compression flag `0x80` (IMA ADPCM stereo). -/
def COMPRESSION_IMA_ADCPM_STEREO : Nat := 0x80

/-- The external compression collaborators (out of scope per spec §1).
`inflate`/`bunzip` model `flate2::Decompress`/`bzip2::Decompress` applied
to an input buffer with an expected output size, `none` meaning the
decompressor reported failure; `deflate` models the raw DEFLATE
compressor used by the writer. -/
structure ExtCodec where
  inflate : List Nat → Nat → Option (List Nat)
  bunzip : List Nat → Nat → Option (List Nat)
  deflate : List Nat → List Nat

/-- A vacuous codec, used to instantiate witnesses whose conclusion does
not depend on the codec. -/
def trivCodec : ExtCodec :=
  { inflate := fun _ _ => none, bunzip := fun _ _ => none, deflate := fun _ => [] }

instance : DecidableEq (Except MpqError (List Nat)) := fun a b =>
  match a, b with
  | Except.ok x, Except.ok y =>
    if h : x = y then isTrue (by rw [h]) else isFalse (by intro hc; cases hc; exact h rfl)
  | Except.error x, Except.error y =>
    if h : x = y then isTrue (by rw [h]) else isFalse (by intro hc; cases hc; exact h rfl)
  | Except.ok _, Except.error _ => isFalse (by intro hc; cases hc)
  | Except.error _, Except.ok _ => isFalse (by intro hc; cases hc)

/-- The optionally-decrypted buffer at the start of `decode_mpq_block`. -/
def mpqDecodedBuf (input : List Nat) (encryptionKey : Option Nat) : List Nat :=
  match encryptionKey with
  | some k => decrypt_mpq_block input k
  | none => input

/-- The BZIP2-then-zlib tail of `decode_mpq_block` (`crypto.rs`): each
supported method, when its flag is set in the first byte, replaces the
buffer by the decompression of `buf[1..]`; a decompressor failure is
`Corrupted`. -/
def decodeSupported (codec : ExtCodec) (buf : List Nat) (uncompressedSize : Nat) :
    Except MpqError (List Nat) :=
  match (if Nat.land (buf.headD 0) COMPRESSION_BZIP2 ≠ 0 then
      match codec.bunzip (buf.drop 1) uncompressedSize with
      | some d => Except.ok d
      | none => Except.error MpqError.corrupted
    else Except.ok buf) with
  | Except.error e => Except.error e
  | Except.ok buf1 =>
    if Nat.land (buf.headD 0) COMPRESSION_ZLIB ≠ 0 then
      match codec.inflate (buf1.drop 1) uncompressedSize with
      | some d => Except.ok d
      | none => Except.error MpqError.corrupted
    else Except.ok buf1

/-- The method-byte dispatch of `decode_mpq_block` (`crypto.rs`): the four
unsupported methods are checked first, in source order. -/
def decodeDispatch (codec : ExtCodec) (buf : List Nat) (uncompressedSize : Nat) :
    Except MpqError (List Nat) :=
  if Nat.land (buf.headD 0) COMPRESSION_IMA_ADCPM_MONO ≠ 0 then
    Except.error (MpqError.unsupportedCompression "IMA ADCPM Mono")
  else if Nat.land (buf.headD 0) COMPRESSION_IMA_ADCPM_STEREO ≠ 0 then
    Except.error (MpqError.unsupportedCompression "IMA ADCPM Stereo")
  else if Nat.land (buf.headD 0) COMPRESSION_HUFFMAN ≠ 0 then
    Except.error (MpqError.unsupportedCompression "Huffman")
  else if Nat.land (buf.headD 0) COMPRESSION_PKWARE ≠ 0 then
    Except.error (MpqError.unsupportedCompression "PKWare DCL")
  else decodeSupported codec buf uncompressedSize

/-- `decode_mpq_block` from `crypto.rs`: decrypt if a key is given; if the
compressed size differs from the uncompressed size, dispatch on the method
byte `buf[0]`. -/
def decode_mpq_block (codec : ExtCodec) (input : List Nat) (uncompressedSize : Nat)
    (encryptionKey : Option Nat) : Except MpqError (List Nat) :=
  if input.length = uncompressedSize then Except.ok (mpqDecodedBuf input encryptionKey)
  else decodeDispatch codec (mpqDecodedBuf input encryptionKey) uncompressedSize

/-- C7 counterexample: on the one-byte sector `[0x40]` with uncompressed
size 2, the code fails with kind `"IMA ADCPM Mono"` (sic), not the
`"IMA ADPCM Mono"` the claim states. -/
theorem C7_adcpm_counterexample :
    decode_mpq_block trivCodec [0x40] 2 none =
        Except.error (MpqError.unsupportedCompression "IMA ADCPM Mono") ∧
      decode_mpq_block trivCodec [0x40] 2 none ≠
        Except.error (MpqError.unsupportedCompression "IMA ADPCM Mono") := by
  constructor
  · decide
  · decide

/-- C7 (amended): for a sector whose compressed size differs from its
uncompressed size, bit `0x40` of the (decrypted) first byte fails with
`UnsupportedCompression` of kind `"IMA ADCPM Mono"` (as the source spells
it); bits `0x80`, `0x01`, `0x08` likewise fail with kinds
`"IMA ADCPM Stereo"`, `"Huffman"`, `"PKWare DCL"`, the checks being made
in that order. -/
theorem C7_unsupported_compression (codec : ExtCodec) (input : List Nat) (u : Nat)
    (key : Option Nat) (hne : input.length ≠ u) :
    (Nat.land ((mpqDecodedBuf input key).headD 0) COMPRESSION_IMA_ADCPM_MONO ≠ 0 →
      decode_mpq_block codec input u key =
        Except.error (MpqError.unsupportedCompression "IMA ADCPM Mono")) ∧
    (Nat.land ((mpqDecodedBuf input key).headD 0) COMPRESSION_IMA_ADCPM_MONO = 0 →
      Nat.land ((mpqDecodedBuf input key).headD 0) COMPRESSION_IMA_ADCPM_STEREO ≠ 0 →
      decode_mpq_block codec input u key =
        Except.error (MpqError.unsupportedCompression "IMA ADCPM Stereo")) ∧
    (Nat.land ((mpqDecodedBuf input key).headD 0) COMPRESSION_IMA_ADCPM_MONO = 0 →
      Nat.land ((mpqDecodedBuf input key).headD 0) COMPRESSION_IMA_ADCPM_STEREO = 0 →
      Nat.land ((mpqDecodedBuf input key).headD 0) COMPRESSION_HUFFMAN ≠ 0 →
      decode_mpq_block codec input u key =
        Except.error (MpqError.unsupportedCompression "Huffman")) ∧
    (Nat.land ((mpqDecodedBuf input key).headD 0) COMPRESSION_IMA_ADCPM_MONO = 0 →
      Nat.land ((mpqDecodedBuf input key).headD 0) COMPRESSION_IMA_ADCPM_STEREO = 0 →
      Nat.land ((mpqDecodedBuf input key).headD 0) COMPRESSION_HUFFMAN = 0 →
      Nat.land ((mpqDecodedBuf input key).headD 0) COMPRESSION_PKWARE ≠ 0 →
      decode_mpq_block codec input u key =
        Except.error (MpqError.unsupportedCompression "PKWare DCL")) := by
  refine ⟨?_, ?_, ?_, ?_⟩
  · intro h40
    unfold decode_mpq_block
    rw [if_neg hne]
    unfold decodeDispatch
    rw [if_pos h40]
  · intro h40 h80
    unfold decode_mpq_block
    rw [if_neg hne]
    unfold decodeDispatch
    rw [if_neg (not_not_intro h40), if_pos h80]
  · intro h40 h80 h01
    unfold decode_mpq_block
    rw [if_neg hne]
    unfold decodeDispatch
    rw [if_neg (not_not_intro h40), if_neg (not_not_intro h80), if_pos h01]
  · intro h40 h80 h01 h08
    unfold decode_mpq_block
    rw [if_neg hne]
    unfold decodeDispatch
    rw [if_neg (not_not_intro h40), if_neg (not_not_intro h80), if_neg (not_not_intro h01), if_pos h08]

/-- Witness for C7 (amended) at the concrete sector `[0x40]`. -/
theorem C7_unsupported_compression_witness :
    ([0x40] : List Nat).length ≠ 2 ∧
      decode_mpq_block trivCodec [0x40] 2 none =
        Except.error (MpqError.unsupportedCompression "IMA ADCPM Mono") :=
  ⟨by decide, (C7_unsupported_compression trivCodec [0x40] 2 none (by decide)).1 (by decide)⟩

/-! ## Creator pending-file map (`creator.rs`) -/

/-- `FileKey` from `creator.rs`. -/
structure FileKey where
  hash_a : Nat
  hash_b : Nat
  index : Nat
deriving DecidableEq, Repr

/-- `FileKey::new` from `creator.rs` (uses the slash-fold `hash_string`
on the given name). -/
def FileKey.ofName (name : List Nat) : FileKey :=
  { hash_a := hash_string name MPQ_HASH_NAME_A
    hash_b := hash_string name MPQ_HASH_NAME_B
    index := hash_string name MPQ_HASH_TABLE_INDEX }

/-- `FileOptions` from `creator.rs`. -/
structure FileOptions where
  encrypt : Bool
  compress : Bool
  adjust_key : Bool
deriving DecidableEq, Repr

/-- `FileRecord` from `creator.rs` (`offset` and `compressed_size` start
at 0 and are filled in by `write_file`). -/
structure FileRecord where
  file_name : List Nat
  contents : List Nat
  offset : Nat
  compressed_size : Nat
  options : FileOptions
deriving DecidableEq, Repr

/-- `FileRecord::new` from `creator.rs`. -/
def FileRecord.ofParts (name contents : List Nat) (options : FileOptions) : FileRecord :=
  { file_name := name, contents := contents, offset := 0, compressed_size := 0,
    options := options }

/-- `IndexMap::insert` (the `indexmap` crate): if an equivalent key is
present, its value is updated in place (the key keeps its position in the
order); otherwise the pair is appended. -/
def indexMapInsert (m : List (FileKey × FileRecord)) (k : FileKey) (v : FileRecord) :
    List (FileKey × FileRecord) :=
  if m.any (fun p => p.1 == k) then m.map (fun p => if p.1 == k then (k, v) else p)
  else m ++ [(k, v)]

/-- The slash replacement of `Creator::add_file`
(`file_name.replace('/', "\\")`, byte-level). -/
def replaceSlashes (name : List Nat) : List Nat :=
  name.map (fun b => if b = 47 then 92 else b)

/-- `Creator::add_file` from `creator.rs`: replace `/` by `\\`, hash the
result into a `FileKey`, and `IndexMap::insert` the record. -/
def Creator.addFile (m : List (FileKey × FileRecord)) (name contents : List Nat)
    (options : FileOptions) : List (FileKey × FileRecord) :=
  indexMapInsert m (FileKey.ofName (replaceSlashes name))
    (FileRecord.ofParts (replaceSlashes name) contents options)

/-- A mismatched key tests `== k` false. -/
theorem key_beq_false {p : FileKey × FileRecord} {k : FileKey} (h : ¬p.1 = k) :
    (p.1 == k) = false := by
  simpa using h

/-- `find?` after the replace-in-place branch of `insert`. -/
theorem find_map_insert (k : FileKey) (v : FileRecord) :
    ∀ (m : List (FileKey × FileRecord)), m.any (fun p => p.1 == k) = true →
      (m.map (fun p => if p.1 == k then (k, v) else p)).find? (fun p => p.1 == k) =
        some (k, v) := by
  intro m
  induction m with
  | nil => intro h; simp at h
  | cons p rest ih =>
    intro hany
    by_cases hp : p.1 = k
    · simp [List.find?_cons, hp]
    · have hp' := key_beq_false hp
      simp only [List.map_cons, hp', if_false]
      rw [List.find?_cons_of_neg _ (by simp [hp'])]
      apply ih
      simpa [hp'] using hany

/-- `find?` after the append branch of `insert`. -/
theorem find_append_insert (k : FileKey) (v : FileRecord) :
    ∀ (m : List (FileKey × FileRecord)), m.any (fun p => p.1 == k) = false →
      (m ++ [(k, v)]).find? (fun p => p.1 == k) = some (k, v) := by
  intro m
  induction m with
  | nil => simp [List.find?_cons]
  | cons p rest ih =>
    intro hany
    simp only [List.any_cons, Bool.or_eq_false_iff] at hany
    rw [List.cons_append, List.find?_cons_of_neg _ (by simp [hany.1])]
    exact ih hany.2

/-- After `insert`, looking the key up finds exactly the new value. -/
theorem indexMapInsert_find (m : List (FileKey × FileRecord)) (k : FileKey) (v : FileRecord) :
    (indexMapInsert m k v).find? (fun p => p.1 == k) = some (k, v) := by
  unfold indexMapInsert
  cases hb : m.any (fun p => p.1 == k) with
  | false =>
    rw [if_neg (by simp)]
    exact find_append_insert k v m hb
  | true =>
    rw [if_pos rfl]
    exact find_map_insert k v m hb

/-- The replace-in-place branch of `insert` does not move the key. -/
theorem findIdx_map_insert (k : FileKey) (v : FileRecord) :
    ∀ (m : List (FileKey × FileRecord)),
      (m.map (fun p => if p.1 == k then (k, v) else p)).findIdx (fun p => p.1 == k) =
        m.findIdx (fun p => p.1 == k) := by
  intro m
  induction m with
  | nil => rfl
  | cons p rest ih =>
    by_cases hp : p.1 = k
    · simp [List.findIdx_cons, hp]
    · have hp' := key_beq_false hp
      rw [List.map_cons, List.findIdx_cons, List.findIdx_cons]
      have hfp : (if (p.1 == k) = true then (k, v) else p) = p := if_neg (by simp [hp'])
      rw [hfp, hp']
      simp only [cond_false]
      rw [ih]

/-- The key is present after `insert`. -/
theorem indexMapInsert_any (m : List (FileKey × FileRecord)) (k : FileKey) (v : FileRecord) :
    (indexMapInsert m k v).any (fun p => p.1 == k) = true := by
  unfold indexMapInsert
  split
  · rename_i hany
    induction m with
    | nil => simp at hany
    | cons p rest ih =>
      by_cases hp : p.1 = k
      · simp [hp]
      · have hp' := key_beq_false hp
        simp only [List.map_cons, hp', if_false, List.any_cons, Bool.or_eq_true]
        right
        have : rest.any (fun p => p.1 == k) = true := by
          simpa [hp'] using hany
        simpa using ih this
  · simp

set_option maxRecDepth 40000 in
/-- C2 counterexample: adding `"a/b"` and then `"a\\b"` (same `FileKey`)
with different contents leaves the second record in the map, not the
first. -/
theorem C2_overwrite_counterexample :
    Creator.addFile (Creator.addFile [] [97, 47, 98] [1] ⟨false, false, false⟩)
        [97, 92, 98] [2] ⟨false, true, false⟩ =
      [(FileKey.ofName [97, 92, 98], FileRecord.ofParts [97, 92, 98] [2] ⟨false, true, false⟩)] ∧
    ([2] : List Nat) ≠ [1] := by
  constructor
  · decide
  · decide

/-- C2 (amended): a second `add_file` under the same hashed `FileKey`
replaces the pending record with the new contents and options
(`IndexMap::insert` semantics), while the key keeps its original
insertion position and the map its length. -/
theorem C2_second_add_overwrites
    (m : List (FileKey × FileRecord)) (n1 c1 : List Nat) (o1 : FileOptions)
    (n2 c2 : List Nat) (o2 : FileOptions)
    (hk : FileKey.ofName (replaceSlashes n1) = FileKey.ofName (replaceSlashes n2)) :
    (Creator.addFile (Creator.addFile m n1 c1 o1) n2 c2 o2).find?
        (fun p => p.1 == FileKey.ofName (replaceSlashes n2)) =
      some (FileKey.ofName (replaceSlashes n2), FileRecord.ofParts (replaceSlashes n2) c2 o2) ∧
    (Creator.addFile (Creator.addFile m n1 c1 o1) n2 c2 o2).findIdx
        (fun p => p.1 == FileKey.ofName (replaceSlashes n2)) =
      (Creator.addFile m n1 c1 o1).findIdx
        (fun p => p.1 == FileKey.ofName (replaceSlashes n2)) ∧
    (Creator.addFile (Creator.addFile m n1 c1 o1) n2 c2 o2).length =
      (Creator.addFile m n1 c1 o1).length := by
  have hany : (Creator.addFile m n1 c1 o1).any
      (fun p => p.1 == FileKey.ofName (replaceSlashes n2)) = true := by
    unfold Creator.addFile
    rw [← hk]
    exact indexMapInsert_any _ _ _
  refine ⟨indexMapInsert_find _ _ _, ?_, ?_⟩
  · show (indexMapInsert _ _ _).findIdx _ = _
    unfold indexMapInsert
    rw [if_pos hany]
    exact findIdx_map_insert _ _ _
  · show (indexMapInsert _ _ _).length = _
    unfold indexMapInsert
    rw [if_pos hany]
    exact List.length_map _ _

set_option maxRecDepth 40000 in
/-- Witness for C2 (amended) with `n1 = "a/b"`, `n2 = "a\\b"`. -/
theorem C2_second_add_overwrites_witness :
    FileKey.ofName (replaceSlashes [97, 47, 98]) = FileKey.ofName (replaceSlashes [97, 92, 98]) ∧
      (Creator.addFile (Creator.addFile [] [97, 47, 98] [1] ⟨false, false, false⟩)
          [97, 92, 98] [2] ⟨false, true, false⟩).find?
          (fun p => p.1 == FileKey.ofName (replaceSlashes [97, 92, 98])) =
        some (FileKey.ofName (replaceSlashes [97, 92, 98]),
          FileRecord.ofParts (replaceSlashes [97, 92, 98]) [2] ⟨false, true, false⟩) :=
  ⟨by decide,
    (C2_second_add_overwrites [] [97, 47, 98] [1] ⟨false, false, false⟩
      [97, 92, 98] [2] ⟨false, true, false⟩ (by decide)).1⟩

/-! ## Hash table lookup (`table.rs`, `FileHashTable::find_entry`) -/

/-- `HashEntry` from `table.rs`. -/
structure HashEntry where
  hash_a : Nat
  hash_b : Nat
  locale : Nat
  platform : Nat
  block_index : Nat
deriving DecidableEq, Repr

/-- Modelled from the spec: `HASH_TABLE_EMPTY_ENTRY = 0xFFFFFFFF`, the
`block_index` of a blank entry (missing `consts.rs`; `HashEntry::blank`
in `table.rs` uses the same value). -/
def HASH_TABLE_EMPTY_ENTRY : Nat := 0xFFFFFFFF

/-- `HashEntry::blank` from `table.rs`. -/
def HashEntry.blank : HashEntry :=
  { hash_a := 0xFFFFFFFF, hash_b := 0xFFFFFFFF, locale := 0xFFFF, platform := 0x00FF,
    block_index := 0xFFFFFFFF }

/-- The probe loop of `FileHashTable::find_entry` (`table.rs`): inspect
the current slot, stop on `block_index = HASH_TABLE_EMPTY_ENTRY`, return
on a `hash_a`/`hash_b`/`locale = 0` match, else advance by
`(index + 1) & hash_mask` and stop if back at the start.  `fuel` only
bounds the recursion; with `fuel = entries.len()` it never fires before
the wrap-around check does. -/
def findEntryGo (entries : List HashEntry) (a b start mask : Nat) :
    Nat → Nat → Option HashEntry
  | _, 0 => none
  | index, fuel + 1 =>
    let e := entries.getD index HashEntry.blank
    if e.block_index = HASH_TABLE_EMPTY_ENTRY then none
    else if e.hash_a = a ∧ e.hash_b = b ∧ e.locale = 0 then some e
    else
      let index1 := Nat.land (index + 1) mask
      if index1 = start then none
      else findEntryGo entries a b start mask index1 fuel

/-- `FileHashTable::find_entry` from `table.rs`.  (On an empty table the
Rust code underflows `len - 1` and panics; the model returns `none`.) -/
def find_entry (entries : List HashEntry) (name : List Nat) : Option HashEntry :=
  findEntryGo entries (hash_string name MPQ_HASH_NAME_A) (hash_string name MPQ_HASH_NAME_B)
    (Nat.land (hash_string name MPQ_HASH_TABLE_INDEX) (entries.length - 1))
    (entries.length - 1)
    (Nat.land (hash_string name MPQ_HASH_TABLE_INDEX) (entries.length - 1))
    entries.length

/-- The probe sequence of spec §4.4: starting slot `i`, advancing by one
modulo the table length, for `n` steps. -/
def probeIndices (len : Nat) : Nat → Nat → List Nat
  | _, 0 => []
  | i, n + 1 => i :: probeIndices len ((i + 1) % len) n

/-- Spec §4.4 lookup along a probe sequence, with the stop condition the
code actually uses: fail at the first entry whose
`block_index = 0xFFFFFFFF` (an "empty terminator", regardless of its
`hash_a`); return the first entry matching `hash_a`, `hash_b` and
`locale = 0`; fail when the sequence is exhausted (full cycle). -/
def probeScan (entries : List HashEntry) (a b : Nat) : List Nat → Option HashEntry
  | [] => none
  | i :: rest =>
    let e := entries.getD i HashEntry.blank
    if e.block_index = HASH_TABLE_EMPTY_ENTRY then none
    else if e.hash_a = a ∧ e.hash_b = b ∧ e.locale = 0 then some e
    else probeScan entries a b rest

/-- The spec §4.4 lookup: probe one full cycle from `idx % len`. -/
def specFindEntry (entries : List HashEntry) (a b idx : Nat) : Option HashEntry :=
  probeScan entries a b
    (probeIndices entries.length (idx % entries.length) entries.length)

/-- In a nonempty cyclic probe, returning to the start takes exactly a
full cycle. -/
theorem mod_cycle_eq_iff (len start u : Nat) (hlen : 0 < len) (hstart : start < len) :
    (start + u) % len = start ↔ u % len = 0 := by
  constructor
  · intro h
    have hd := Nat.div_add_mod u len
    set r := u % len with hr
    have hrlt : r < len := Nat.mod_lt _ hlen
    have h2 : (start + u) % len = (start + r) % len := by
      conv_lhs => rw [← hd]
      rw [show start + (len * (u / len) + r) = start + r + len * (u / len) from by omega]
      rw [Nat.add_mul_mod_self_left]
    rw [h2] at h
    by_cases hc : start + r < len
    · rw [Nat.mod_eq_of_lt hc] at h
      omega
    · have h3 : (start + r) % len = start + r - len := by
        rw [Nat.mod_eq_sub_mod (by omega), Nat.mod_eq_of_lt (by omega)]
      rw [h3] at h
      omega
  · intro h
    have hd := Nat.div_add_mod u len
    have h2 : start + u = start + len * (u / len) := by omega
    rw [h2, Nat.add_mul_mod_self_left, Nat.mod_eq_of_lt hstart]

/-- A multiple of `len` between 1 and `len` is `len` itself. -/
theorem mod_zero_between (len u : Nat) (h : u % len = 0) (h1 : 1 ≤ u) (h2 : u ≤ len) :
    u = len := by
  rcases Nat.eq_zero_or_pos len with hl | hl
  · omega
  · obtain ⟨c, hc⟩ := Nat.dvd_of_mod_eq_zero h
    rcases c with _ | c
    · omega
    · have : len * 1 ≤ len * (c + 1) := Nat.mul_le_mul_left _ (by omega)
      omega

/-- The masked, wrap-checked probe loop equals the spec's one-cycle scan
(on power-of-two tables, where `& (len − 1)` is `% len`). -/
theorem findEntryGo_eq_probeScan (entries : List HashEntry) (a b : Nat) (k : Nat)
    (hlen : entries.length = 2 ^ k) (start : Nat) (hstart : start < entries.length) :
    ∀ (fuel t i : Nat), t + fuel = entries.length → i = (start + t) % entries.length →
      findEntryGo entries a b start (entries.length - 1) i fuel =
        probeScan entries a b (probeIndices entries.length i fuel) := by
  intro fuel
  induction fuel with
  | zero => intro t i _ _; rfl
  | succ f ih =>
    intro t i ht hi
    have hpos : 0 < entries.length := by rw [hlen]; exact Nat.pos_pow_of_pos _ (by omega)
    rw [findEntryGo, probeIndices, probeScan]
    by_cases hterm : (entries.getD i HashEntry.blank).block_index = HASH_TABLE_EMPTY_ENTRY
    · rw [if_pos hterm, if_pos hterm]
    · rw [if_neg hterm, if_neg hterm]
      by_cases hmatch : (entries.getD i HashEntry.blank).hash_a = a ∧
          (entries.getD i HashEntry.blank).hash_b = b ∧
          (entries.getD i HashEntry.blank).locale = 0
      · rw [if_pos hmatch, if_pos hmatch]
      · rw [if_neg hmatch, if_neg hmatch]
        have hland : Nat.land (i + 1) (entries.length - 1) = (i + 1) % entries.length := by
          rw [hlen]
          exact land_two_pow_sub_one (i + 1) k
        have hnext : (i + 1) % entries.length = (start + (t + 1)) % entries.length := by
          rw [hi, Nat.mod_add_mod, Nat.add_assoc]
        rw [hland]
        by_cases hwrap : (i + 1) % entries.length = start
        · rw [if_pos hwrap]
          have hcycle : (t + 1) % entries.length = 0 := by
            rw [hnext] at hwrap
            exact (mod_cycle_eq_iff _ _ _ hpos hstart).mp hwrap
          have : t + 1 = entries.length :=
            mod_zero_between _ _ hcycle (by omega) (by omega)
          have hf : f = 0 := by omega
          rw [hf]
          rfl
        · rw [if_neg hwrap]
          exact ih (t + 1) _ (by omega) hnext

set_option maxRecDepth 40000 in
/-- C3 counterexample: the probe stops (with failure) at an entry whose
`block_index` is `0xFFFFFFFF` even though its `hash_a` is not
`0xFFFFFFFF` — indeed even though the entry matches the looked-up name's
`hash_a`, `hash_b` and `locale = 0`, so by the claim it should have been
returned. -/
theorem C3_terminator_counterexample :
    find_entry [{ hash_a := hash_string [120] MPQ_HASH_NAME_A,
                  hash_b := hash_string [120] MPQ_HASH_NAME_B,
                  locale := 0, platform := 0, block_index := 0xFFFFFFFF }] [120] = none ∧
      hash_string [120] MPQ_HASH_NAME_A ≠ 0xFFFFFFFF := by
  constructor
  · decide
  · decide

/-- C3 (amended): on a power-of-two table, `find_entry` probes from
`index & (len − 1)`, advancing by one modulo the table length for at most
one full cycle; it stops with failure exactly at an entry whose
`block_index = 0xFFFFFFFF` (regardless of that entry's `hash_a`), and
returns the first entry matching `hash_a`, `hash_b` and `locale = 0`. -/
theorem C3_find_entry_probe (entries : List HashEntry) (name : List Nat) (k : Nat)
    (hlen : entries.length = 2 ^ k) :
    find_entry entries name =
      specFindEntry entries (hash_string name MPQ_HASH_NAME_A)
        (hash_string name MPQ_HASH_NAME_B) (hash_string name MPQ_HASH_TABLE_INDEX) := by
  have hpos : 0 < entries.length := by rw [hlen]; exact Nat.pos_pow_of_pos _ (by omega)
  have hstartmask : Nat.land (hash_string name MPQ_HASH_TABLE_INDEX) (entries.length - 1) =
      hash_string name MPQ_HASH_TABLE_INDEX % entries.length := by
    rw [hlen]
    exact land_two_pow_sub_one (hash_string name MPQ_HASH_TABLE_INDEX) k
  unfold find_entry specFindEntry
  rw [hstartmask]
  exact findEntryGo_eq_probeScan entries _ _ k hlen _
    (Nat.mod_lt _ hpos) entries.length 0 _ (by omega) (by simp)

set_option maxRecDepth 40000 in
/-- Witness for C3 (amended): a concrete two-entry table. -/
theorem C3_find_entry_probe_witness :
    ([HashEntry.blank, HashEntry.blank] : List HashEntry).length = 2 ^ 1 ∧
      find_entry [HashEntry.blank, HashEntry.blank] [120] =
        specFindEntry [HashEntry.blank, HashEntry.blank]
          (hash_string [120] MPQ_HASH_NAME_A) (hash_string [120] MPQ_HASH_NAME_B)
          (hash_string [120] MPQ_HASH_TABLE_INDEX) :=
  ⟨by decide, C3_find_entry_probe [HashEntry.blank, HashEntry.blank] [120] 1 (by decide)⟩
/-! ## Listfile parsing (`archive.rs`, `Archive::files`) -/

/-- One iteration of the line-splitting loop of `Archive::files`
(`archive.rs`): the state is `(line_start, collected names)`; at a CR or
LF byte the slice `listfile[line_start..i]`, when nonempty and valid
UTF-8, is pushed, and `line_start` moves past the delimiter. -/
def filesLoopStep (utf8dec : List Nat → Option String) (bytes : List Nat)
    (st : Nat × List String) (i : Nat) : Nat × List String :=
  let byte := bytes.getD i 0
  if byte = 13 ∨ byte = 10 then
    (i + 1,
      if i - st.1 > 0 then
        match utf8dec ((bytes.drop st.1).take (i - st.1)) with
        | some line => st.2 ++ [line]
        | none => st.2
      else st.2)
  else st

/-- `Archive::files` from `archive.rs`, as a function of the result of
`read_file("(listfile)")`: any error gives `None`; otherwise the loop
above runs over all byte positions.  UTF-8 decoding
(`std::str::from_utf8`) is the external parameter `utf8dec`. -/
def archiveFilesFromListfile (utf8dec : List Nat → Option String)
    (r : Except MpqError (List Nat)) : Option (List String) :=
  match r with
  | Except.error _ => none
  | Except.ok listfile =>
    some (((List.range listfile.length).foldl (filesLoopStep utf8dec listfile) (0, [])).2)

/-- The segments of a byte list delimited by CR (13) or LF (10) bytes,
including the final, unterminated segment (so the result is nonempty). -/
def crlfSegments : List Nat → List (List Nat)
  | [] => [[]]
  | b :: rest =>
    if b = 13 ∨ b = 10 then [] :: crlfSegments rest
    else
      match crlfSegments rest with
      | s :: ss => (b :: s) :: ss
      | [] => [[b]]

/-- Spec-side reading of `files`: the delimited segments except the
trailing one, keeping, in order, the decodings of the nonempty valid
UTF-8 segments. -/
def specListfileNames (utf8dec : List Nat → Option String) (bytes : List Nat) : List String :=
  ((crlfSegments bytes).dropLast).filterMap (fun seg => if seg = [] then none else utf8dec seg)

/-- Recursive form of the spec-side reading: `cur` is the partial segment
accumulated since the last delimiter. -/
def specNamesAux (utf8dec : List Nat → Option String) : List Nat → List Nat → List String
  | _, [] => []
  | cur, b :: rest =>
    if b = 13 ∨ b = 10 then
      match (if cur = [] then none else utf8dec cur) with
      | some line => line :: specNamesAux utf8dec [] rest
      | none => specNamesAux utf8dec [] rest
    else specNamesAux utf8dec (cur ++ [b]) rest

/-- Prepend a partial segment to the head segment of a split. -/
def consHead (cur : List Nat) : List (List Nat) → List (List Nat)
  | [] => [cur]
  | s :: ss => (cur ++ s) :: ss

/-- The processing loop over positions `m, m+1, …, m+c-1`. -/
def filesLoopCount (utf8dec : List Nat → Option String) (bytes : List Nat) :
    Nat → Nat → (Nat × List String) → (Nat × List String)
  | 0, _, st => st
  | c + 1, m, st => filesLoopCount utf8dec bytes c (m + 1) (filesLoopStep utf8dec bytes st m)

theorem foldl_range'_filesLoop (u : List Nat → Option String) (bytes : List Nat) :
    ∀ (c m : Nat) (st : Nat × List String),
      (List.range' m c).foldl (filesLoopStep u bytes) st = filesLoopCount u bytes c m st := by
  intro c
  induction c with
  | zero => intro m st; rfl
  | succ n ih =>
    intro m st
    rw [List.range'_succ, List.foldl_cons, filesLoopCount]
    exact ih (m + 1) _

theorem getD_eq_headD_drop {α : Type} (l : List α) (m : Nat) (d : α) :
    l.getD m d = (l.drop m).headD d := by
  induction l generalizing m with
  | nil => simp
  | cons x xs ih =>
    cases m with
    | zero => rfl
    | succ n => simp only [List.getD_cons_succ, List.drop_succ_cons]; exact ih n

theorem getElem?_eq_head?_drop {α : Type} (l : List α) (n : Nat) :
    l[n]? = (l.drop n).head? := by
  induction l generalizing n with
  | nil => simp
  | cons x xs ih =>
    cases n with
    | zero => simp
    | succ m => simp only [List.getElem?_cons_succ, List.drop_succ_cons]; exact ih m

theorem crlfSegments_ne_nil (l : List Nat) : crlfSegments l ≠ [] := by
  cases l with
  | nil => simp [crlfSegments]
  | cons b rest =>
    rw [crlfSegments]
    split
    · simp
    · split <;> simp

/-- The code loop, started mid-buffer with partial segment
`bytes[ls..m)`, produces the spec recursion's output. -/
theorem filesLoopCount_eq_aux (u : List Nat → Option String) (bytes : List Nat) :
    ∀ (r : List Nat) (m ls : Nat) (acc : List String), ls ≤ m → bytes.drop m = r →
      (filesLoopCount u bytes r.length m (ls, acc)).2 =
        acc ++ specNamesAux u ((bytes.drop ls).take (m - ls)) r := by
  intro r
  induction r with
  | nil => intro m ls acc _ _; simp [filesLoopCount, specNamesAux]
  | cons b rest ih =>
    intro m ls acc hls hdrop
    have hmlt : m < bytes.length := by
      by_contra hc
      rw [List.drop_eq_nil_of_le (by omega)] at hdrop
      simp at hdrop
    have hb : bytes.getD m 0 = b := by
      rw [getD_eq_headD_drop, hdrop]
      rfl
    have hdrop1 : bytes.drop (m + 1) = rest := by
      rw [← List.tail_drop, hdrop]
      rfl
    show (filesLoopCount u bytes (rest.length + 1) m (ls, acc)).2 = _
    rw [filesLoopCount]
    unfold filesLoopStep
    rw [hb]
    by_cases hdelim : b = 13 ∨ b = 10
    · rw [if_pos hdelim]
      by_cases hcur : m - ls > 0
      · rw [if_pos hcur]
        have hcurlen : ((bytes.drop ls).take (m - ls)).length = m - ls := by
          rw [List.length_take, List.length_drop]
          omega
        have hcurne : ¬((bytes.drop ls).take (m - ls)) = [] := by
          intro hc
          rw [hc] at hcurlen
          simp at hcurlen
          omega
        rw [show specNamesAux u ((bytes.drop ls).take (m - ls)) (b :: rest) =
            match (if ((bytes.drop ls).take (m - ls)) = [] then none
                else u ((bytes.drop ls).take (m - ls))) with
            | some line => line :: specNamesAux u [] rest
            | none => specNamesAux u [] rest from by rw [specNamesAux, if_pos hdelim]]
        rw [if_neg hcurne]
        cases hu : u ((bytes.drop ls).take (m - ls)) with
        | some line =>
          dsimp only
          have := ih (m + 1) (m + 1) (acc ++ [line]) (by omega) hdrop1
          rw [show m + 1 - (m + 1) = 0 from by omega, List.take_zero] at this
          rw [this, List.append_assoc]
          rfl
        | none =>
          dsimp only
          have := ih (m + 1) (m + 1) acc (by omega) hdrop1
          rw [show m + 1 - (m + 1) = 0 from by omega, List.take_zero] at this
          rw [this]
      · rw [if_neg hcur]
        have hcurnil : (bytes.drop ls).take (m - ls) = [] := by
          rw [show m - ls = 0 from by omega, List.take_zero]
        have := ih (m + 1) (m + 1) acc (by omega) hdrop1
        rw [show m + 1 - (m + 1) = 0 from by omega, List.take_zero] at this
        rw [this, hcurnil]
        rw [show specNamesAux u [] (b :: rest) =
            match (if ([] : List Nat) = [] then none else u []) with
            | some line => line :: specNamesAux u [] rest
            | none => specNamesAux u [] rest from by rw [specNamesAux, if_pos hdelim]]
        rw [if_pos rfl]
    · rw [if_neg hdelim]
      have hext : (bytes.drop ls).take (m + 1 - ls) = (bytes.drop ls).take (m - ls) ++ [b] := by
        rw [show m + 1 - ls = (m - ls) + 1 from by omega, List.take_succ]
        congr 1
        rw [getElem?_eq_head?_drop, List.drop_drop, show ls + (m - ls) = m from by omega, hdrop]
        rfl
      have := ih (m + 1) ls acc (by omega) hdrop1
      rw [hext] at this
      rw [this]
      rw [show specNamesAux u ((bytes.drop ls).take (m - ls)) (b :: rest) =
          specNamesAux u ((bytes.drop ls).take (m - ls) ++ [b]) rest from by
        rw [specNamesAux, if_neg hdelim]]

/-- The spec recursion computes the declarative split. -/
theorem specNamesAux_eq (u : List Nat → Option String) :
    ∀ (r cur : List Nat),
      specNamesAux u cur r =
        ((consHead cur (crlfSegments r)).dropLast).filterMap
          (fun seg => if seg = [] then none else u seg) := by
  intro r
  induction r with
  | nil =>
    intro cur
    simp [specNamesAux, crlfSegments, consHead]
  | cons b rest ih =>
    intro cur
    by_cases hdelim : b = 13 ∨ b = 10
    · rw [specNamesAux, if_pos hdelim]
      rw [show crlfSegments (b :: rest) = [] :: crlfSegments rest from by
        rw [crlfSegments, if_pos hdelim]]
      rw [show consHead cur ([] :: crlfSegments rest) = cur :: crlfSegments rest from by
        rw [consHead, List.append_nil]]
      obtain ⟨s, ss, hss⟩ : ∃ s ss, crlfSegments rest = s :: ss := by
        cases h : crlfSegments rest with
        | nil => exact absurd h (crlfSegments_ne_nil rest)
        | cons s ss => exact ⟨s, ss, rfl⟩
      rw [hss, List.dropLast_cons₂, List.filterMap_cons]
      have ihe := ih []
      rw [show consHead [] (crlfSegments rest) = crlfSegments rest from by
        rw [hss, consHead, List.nil_append], hss] at ihe
      cases hcur : (if cur = [] then none else u cur) with
      | some line => rw [ihe]
      | none => rw [ihe]
    · rw [specNamesAux, if_neg hdelim]
      obtain ⟨s, ss, hss⟩ : ∃ s ss, crlfSegments rest = s :: ss := by
        cases h : crlfSegments rest with
        | nil => exact absurd h (crlfSegments_ne_nil rest)
        | cons s ss => exact ⟨s, ss, rfl⟩
      rw [show crlfSegments (b :: rest) = (b :: s) :: ss from by
        rw [crlfSegments, if_neg hdelim, hss]]
      rw [ih (cur ++ [b]), hss]
      simp [consHead]

/-- C10: `files()` is `None` whenever `read_file("(listfile)")` returns
any error; on success it returns, in listfile order, exactly the
CR/LF-delimited segments that are nonempty and decode as UTF-8, silently
omitting undecodable segments and the trailing unterminated segment. -/
theorem C10_files_listfile (utf8dec : List Nat → Option String)
    (r : Except MpqError (List Nat)) :
    archiveFilesFromListfile utf8dec r =
      match r with
      | Except.error _ => none
      | Except.ok bytes => some (specListfileNames utf8dec bytes) := by
  cases r with
  | error e => rfl
  | ok bytes =>
    show some _ = some _
    congr 1
    rw [List.range_eq_range', foldl_range'_filesLoop]
    have h := filesLoopCount_eq_aux utf8dec bytes bytes 0 0 [] (by omega) (by simp)
    rw [show (0 : Nat) - 0 = 0 from rfl, List.take_zero, List.nil_append] at h
    rw [h, specNamesAux_eq]
    obtain ⟨s, ss, hss⟩ : ∃ s ss, crlfSegments bytes = s :: ss := by
      cases hc : crlfSegments bytes with
      | nil => exact absurd hc (crlfSegments_ne_nil bytes)
      | cons s ss => exact ⟨s, ss, rfl⟩
    unfold specListfileNames
    rw [hss]
    rw [show consHead [] (s :: ss) = s :: ss from by rw [consHead, List.nil_append]]

/-! ## Block table, seeker and file reader (`table.rs`, `archive.rs`) -/

/-- `BlockEntry` from `table.rs` (u32 fields widened to u64 in memory). -/
structure BlockEntry where
  file_pos : Nat
  compressed_size : Nat
  uncompressed_size : Nat
  flags : Nat
deriving DecidableEq, Repr

/-- Modelled from the spec: file flag `EXISTS = 0x80000000`. -/
def MPQ_FILE_EXISTS : Nat := 0x80000000

/-- Modelled from the spec: file flag `ENCRYPTED = 0x00010000`. -/
def MPQ_FILE_ENCRYPTED : Nat := 0x00010000

/-- Modelled from the spec: file flag `ADJUST_KEY = 0x00020000`. -/
def MPQ_FILE_ADJUST_KEY : Nat := 0x00020000

/-- Modelled from the spec: file flag `COMPRESS = 0x00000200`. -/
def MPQ_FILE_COMPRESS : Nat := 0x00000200

/-- Modelled from the spec: file flag `IMPLODE = 0x00000100`. -/
def MPQ_FILE_IMPLODE : Nat := 0x00000100

/-- `BlockEntry::is_encrypted` from `table.rs`. -/
def BlockEntry.is_encrypted (e : BlockEntry) : Bool :=
  Nat.land e.flags MPQ_FILE_ENCRYPTED != 0

/-- `BlockEntry::is_key_adjusted` from `table.rs`. -/
def BlockEntry.is_key_adjusted (e : BlockEntry) : Bool :=
  Nat.land e.flags MPQ_FILE_ADJUST_KEY != 0

/-- `BlockEntry::is_compressed` from `table.rs`. -/
def BlockEntry.is_compressed (e : BlockEntry) : Bool :=
  Nat.land e.flags MPQ_FILE_COMPRESS != 0

/-- The state of an opened `Archive`: the seeker (byte source plus the
geometry read from the header) and the two parsed tables. -/
structure ArchiveState where
  file : List Nat
  headerOffset : Nat
  sectorSize : Nat
  fileSize : Nat
  hashTable : List HashEntry
  blockTable : List BlockEntry
deriving Repr

/-- Modelled from the spec: `Seeker::read` (§4.3; the live `Seeker` is
missing from src, its legacy twin is `MpqSeeker::read` in `seeker.rs`):
reject archive-relative reads crossing `file_size` with `Corrupted`, then
read exactly `size` bytes (`read_exact` reports `Io` on shortage). -/
def seekerRead (st : ArchiveState) (offset size : Nat) : Except MpqError (List Nat) :=
  if offset + st.headerOffset + size > st.fileSize then Except.error MpqError.corrupted
  else if ((st.file.drop (offset + st.headerOffset)).take size).length < size then
    Except.error MpqError.ioError
  else Except.ok ((st.file.drop (offset + st.headerOffset)).take size)

/-- `get_plain_name` from `crypto.rs`: the suffix after the last `\\` or
`/` byte (the whole name when there is none). -/
def get_plain_name (input : List Nat) : List Nat :=
  (List.range input.length).foldl
    (fun out i => if input.getD i 0 = 92 ∨ input.getD i 0 = 47 then input.drop (i + 1) else out)
    input

/-- `calculate_file_key` from `crypto.rs`: hash the plain name with kind
`0x300`; when adjusted, `key = (key + file_offset) ^ file_size` with a
wrapping u32 addition. -/
def calculate_file_key (fileName : List Nat) (fileOffset fileSize : Nat)
    (adjusted : Bool) : Nat :=
  let key := hash_string (get_plain_name fileName) MPQ_HASH_FILE_KEY
  if adjusted then Nat.xor ((key + fileOffset) % M32) fileSize else key

/-- Parse `n` little-endian u32 values from the front of a buffer
(`read_u32::<LE>` in a loop; shortage is an `Io` error). -/
def parseU32Words (raw : List Nat) (n : Nat) : Except MpqError (List Nat) :=
  if 4 * n ≤ raw.length then Except.ok (bytesToWords (raw.take (4 * n)))
  else Except.error MpqError.ioError

/-- `SectorOffsets::from_reader` from `table.rs`: read
`(sector_count + 1) * 4` bytes at the block's position, decrypt if a key
is given, parse the offsets. -/
def sectorOffsetsFromReader (st : ArchiveState) (be : BlockEntry)
    (encryptionKey : Option Nat) : Except MpqError (List Nat) :=
  let sc := sector_count_from_size be.uncompressed_size st.sectorSize
  match seekerRead st be.file_pos ((sc + 1) * 4) with
  | Except.error e => Except.error e
  | Except.ok raw =>
    parseU32Words (match encryptionKey with
      | some k => decrypt_mpq_block raw k
      | none => raw) (sc + 1)

/-- The per-sector loop of `Archive::read_file` (`archive.rs`): sector
`i` occupies `[offsets[i] − offsets[0], offsets[i+1] − offsets[0])` of
the raw range; its uncompressed size is the archive sector size except
for the last sector (`U mod S`, or `S` when that is 0); decode and
concatenate.  Subtractions wrap as the u32 subtractions of the source do
in release builds. -/
def readSectorsGo (codec : ExtCodec) (sectorSize : Nat) (be : BlockEntry)
    (key : Option Nat) (offsets raw : List Nat) : Nat → Nat → Except MpqError (List Nat)
  | _, 0 => Except.ok []
  | i, r + 1 =>
    let first := offsets.getD 0 0
    let sliceStart := (offsets.getD i 0 + M32 - first) % M32
    let sliceLen := (offsets.getD (i + 1) 0 + M32 - offsets.getD i 0) % M32
    let u := if i + 1 = offsets.length - 1 then
        (if be.uncompressed_size % sectorSize = 0 then sectorSize
         else be.uncompressed_size % sectorSize)
      else sectorSize
    match decode_mpq_block codec ((raw.drop sliceStart).take sliceLen) u
        (key.map (fun k => (k + i) % M32)) with
    | Except.error e => Except.error e
    | Except.ok dec =>
      match readSectorsGo codec sectorSize be key offsets raw (i + 1) r with
      | Except.error e => Except.error e
      | Except.ok restBytes => Except.ok (dec ++ restBytes)

/-- `Archive::read_file` from `archive.rs`: hash-table lookup, block
lookup, optional file key, sector offset table (key − 1), whole sector
range, then the per-sector decode loop. -/
def read_file (codec : ExtCodec) (st : ArchiveState) (name : List Nat) :
    Except MpqError (List Nat) :=
  match find_entry st.hashTable name with
  | none => Except.error MpqError.fileNotFound
  | some hashEntry =>
    match st.blockTable.get? hashEntry.block_index with
    | none => Except.error MpqError.fileNotFound
    | some be =>
      let encryptionKey := if be.is_encrypted then
          some (calculate_file_key name (be.file_pos % M32) (be.uncompressed_size % M32)
            be.is_key_adjusted)
        else none
      match sectorOffsetsFromReader st be (encryptionKey.map (fun k => (k + M32 - 1) % M32)) with
      | Except.error e => Except.error e
      | Except.ok offsets =>
        let first := offsets.getD 0 0
        let rangeLen := (offsets.getD (offsets.length - 1) 0 + M32 - first) % M32
        match seekerRead st (be.file_pos + first) rangeLen with
        | Except.error e => Except.error e
        | Except.ok rawData =>
          readSectorsGo codec st.sectorSize be encryptionKey offsets rawData 0
            (offsets.length - 1)

/-! ## C8: case- and separator-insensitivity of `read_file` -/

/-- `hashStep` consumes bytes only through the fold table. -/
def hashStepFolded (hashType : Nat) (st : Nat × Nat) (upper : Nat) : Nat × Nat :=
  let seed1 := Nat.xor (cryptoTableGet (hashType + upper)) ((st.1 + st.2) % M32)
  let seed2 := (upper + seed1 + st.2 + (st.2 <<< 5) % M32 + 3) % M32
  (seed1, seed2)

theorem hash_string_eq_folded (source : List Nat) (t : Nat) :
    hash_string source t =
      ((source.map asciiUpperSlash).foldl (hashStepFolded t) (0x7FED7FED, 0xEEEEEEEE)).1 := by
  unfold hash_string hash_string_with_table
  rw [List.foldl_map]
  rfl

/-- Names with the same slash-fold share all hashes. -/
theorem hash_string_congr (n1 n2 : List Nat)
    (h : n1.map asciiUpperSlash = n2.map asciiUpperSlash) (t : Nat) :
    hash_string n1 t = hash_string n2 t := by
  rw [hash_string_eq_folded, hash_string_eq_folded, h]

/-- The slash-fold sends exactly the two separator bytes to `\\` (92). -/
theorem asciiUpperSlash_eq_92 (b : Nat) :
    asciiUpperSlash b = 92 ↔ (b = 92 ∨ b = 47) := by
  unfold asciiUpperSlash
  split_ifs with h1 h2 <;> omega

/-- Names with the same slash-fold have plain names with the same
slash-fold. -/
theorem get_plain_name_congr (n1 n2 : List Nat)
    (h : n1.map asciiUpperSlash = n2.map asciiUpperSlash) :
    (get_plain_name n1).map asciiUpperSlash = (get_plain_name n2).map asciiUpperSlash := by
  have hlen : n1.length = n2.length := by
    have := congrArg List.length h
    simpa using this
  have hsep : ∀ i, i < n1.length →
      ((n1.getD i 0 = 92 ∨ n1.getD i 0 = 47) ↔ (n2.getD i 0 = 92 ∨ n2.getD i 0 = 47)) := by
    intro i hi
    have h1 : (n1.map asciiUpperSlash).getD i 0 = asciiUpperSlash (n1.getD i 0) := by
      rw [List.getD, List.getD, List.get?_eq_getElem?, List.get?_eq_getElem?,
        List.getElem?_map, List.getElem?_eq_getElem (by omega)]
      rfl
    have h2 : (n2.map asciiUpperSlash).getD i 0 = asciiUpperSlash (n2.getD i 0) := by
      rw [List.getD, List.getD, List.get?_eq_getElem?, List.get?_eq_getElem?,
        List.getElem?_map, List.getElem?_eq_getElem (by omega)]
      rfl
    rw [← asciiUpperSlash_eq_92, ← asciiUpperSlash_eq_92, ← h1, ← h2, h]
  unfold get_plain_name
  rw [hlen]
  have main : ∀ (idxs : List Nat) (out1 out2 : List Nat),
      (∀ i ∈ idxs, i < n1.length) →
      out1.map asciiUpperSlash = out2.map asciiUpperSlash →
      (idxs.foldl (fun out i =>
          if n1.getD i 0 = 92 ∨ n1.getD i 0 = 47 then n1.drop (i + 1) else out) out1).map
          asciiUpperSlash =
      (idxs.foldl (fun out i =>
          if n2.getD i 0 = 92 ∨ n2.getD i 0 = 47 then n2.drop (i + 1) else out) out2).map
          asciiUpperSlash := by
    intro idxs
    induction idxs with
    | nil => intro out1 out2 _ hout; exact hout
    | cons j js ih =>
      intro out1 out2 hbound hout
      rw [List.foldl_cons, List.foldl_cons]
      apply ih _ _ (fun i hi => hbound i (by simp [hi]))
      by_cases hsepj : n1.getD j 0 = 92 ∨ n1.getD j 0 = 47
      · rw [if_pos hsepj, if_pos ((hsep j (hbound j (by simp))).mp hsepj)]
        rw [List.map_drop, List.map_drop, h]
      · rw [if_neg hsepj, if_neg (fun hc => hsepj ((hsep j (hbound j (by simp))).mpr hc))]
        exact hout
  rw [hlen] at main
  exact main (List.range n2.length) n1 n2 (fun i hi => List.mem_range.mp hi) h

/-- `calculate_file_key` is slash-fold invariant in the name. -/
theorem calculate_file_key_congr (n1 n2 : List Nat)
    (h : n1.map asciiUpperSlash = n2.map asciiUpperSlash)
    (off sz : Nat) (adj : Bool) :
    calculate_file_key n1 off sz adj = calculate_file_key n2 off sz adj := by
  unfold calculate_file_key
  rw [hash_string_congr _ _ (get_plain_name_congr n1 n2 h)]

/-- `find_entry` is slash-fold invariant in the name. -/
theorem find_entry_congr (entries : List HashEntry) (n1 n2 : List Nat)
    (h : n1.map asciiUpperSlash = n2.map asciiUpperSlash) :
    find_entry entries n1 = find_entry entries n2 := by
  unfold find_entry
  rw [hash_string_congr n1 n2 h, hash_string_congr n1 n2 h, hash_string_congr n1 n2 h]

/-- C8: `read_file` returns identical results (same bytes or same error)
for names that differ only in ASCII letter case or in `/` versus `\\`
separators — i.e. names with equal slash-folds. -/
theorem C8_read_file_fold_invariant (codec : ExtCodec) (st : ArchiveState)
    (n1 n2 : List Nat) (h : n1.map asciiUpperSlash = n2.map asciiUpperSlash) :
    read_file codec st n1 = read_file codec st n2 := by
  unfold read_file
  rw [find_entry_congr st.hashTable n1 n2 h]
  cases find_entry st.hashTable n2 with
  | none => rfl
  | some hashEntry =>
    dsimp only
    cases st.blockTable.get? hashEntry.block_index with
    | none => rfl
    | some be =>
      dsimp only
      rw [calculate_file_key_congr n1 n2 h]

set_option maxRecDepth 40000 in
/-- Witness for C8: the claim's instance `"a/b.txt"` versus
`"A\\B.TXT"` (on the empty archive state; the equality of the folds is
what the theorem consumes). -/
theorem C8_read_file_fold_invariant_witness :
    ([97, 47, 98, 46, 116, 120, 116] : List Nat).map asciiUpperSlash =
        ([65, 92, 66, 46, 84, 88, 84] : List Nat).map asciiUpperSlash ∧
      read_file trivCodec ⟨[], 0, 512, 0, [], []⟩ [97, 47, 98, 46, 116, 120, 116] =
        read_file trivCodec ⟨[], 0, 512, 0, [], []⟩ [65, 92, 66, 46, 84, 88, 84] :=
  ⟨by decide,
    C8_read_file_fold_invariant trivCodec ⟨[], 0, 512, 0, [], []⟩
      [97, 47, 98, 46, 116, 120, 116] [65, 92, 66, 46, 84, 88, 84] (by decide)⟩
/-! ## Archive writer (`creator.rs`) -/

/-- Modelled from the spec: `HEADER_MPQ_MAGIC` (`'MPQ\\x1A'`). -/
def HEADER_MPQ_MAGIC : Nat := 0x1A51504D

/-- Modelled from the spec: `HEADER_USER_MAGIC` (`'MPQ\\x1B'`). -/
def HEADER_USER_MAGIC : Nat := 0x1B51504D

/-- Modelled from the spec: `HEADER_BOUNDARY = 512`. -/
def HEADER_BOUNDARY : Nat := 512

/-- Modelled from the spec: the 32-byte MPQ v1 header (4-byte magic plus
28 bytes of fields), reserved by `Creator::write` before the first file. -/
def HEADER_MPQ_SIZE : Nat := 32

/-- Modelled from the spec: `MIN_HASH_TABLE_SIZE = 4`. -/
def MIN_HASH_TABLE_SIZE : Nat := 4

/-- `FileOptions::flags` from `creator.rs`. -/
def FileOptions.flags (o : FileOptions) : Nat :=
  Nat.lor (Nat.lor (Nat.lor MPQ_FILE_EXISTS
    (if o.encrypt then MPQ_FILE_ENCRYPTED else 0))
    (if o.adjust_key then MPQ_FILE_ADJUST_KEY else 0))
    (if o.compress then MPQ_FILE_COMPRESS else 0)

/-- Modelled from the spec: the missing `compress_mpq_block` — the writer
produces only DEFLATE, so the sector body is the method byte `0x02`
followed by the raw DEFLATE stream (spec §4.1, §9). -/
def compress_mpq_block (codec : ExtCodec) (data : List Nat) : List Nat :=
  COMPRESSION_ZLIB :: codec.deflate data

/-- The sector slice `contents[i * S .. min((i + 1) * S, len)]` of
`write_file`. -/
def sectorData (S : Nat) (contents : List Nat) (i : Nat) : List Nat :=
  (contents.drop (i * S)).take (min ((i + 1) * S) contents.length - i * S)

/-- The sector loop of the compressed branch of `write_file`
(`creator.rs`): emit each compressed (and optionally encrypted) sector
and record the running end offset (cast to u32) relative to the file
start; `pos` is the running relative offset. -/
def writeSectors (codec : ExtCodec) (encKey : Option Nat) (S : Nat) (contents : List Nat) :
    Nat → Nat → Nat → (List Nat × List Nat)
  | _, _, 0 => ([], [])
  | i, pos, r + 1 =>
    let compressed := compress_mpq_block codec (sectorData S contents i)
    let encd := match encKey with
      | some k => encrypt_mpq_block compressed ((k + i) % M32)
      | none => compressed
    let rest := writeSectors codec encKey S contents (i + 1) (pos + encd.length) r
    (encd ++ rest.1, (pos + encd.length) % M32 :: rest.2)

/-- The sector loop of the uncompressed branch of `write_file`. -/
def writeRawSectors (encKey : Option Nat) (S : Nat) (contents : List Nat) :
    Nat → Nat → List Nat
  | _, 0 => []
  | i, r + 1 =>
    (match encKey with
      | some k => encrypt_mpq_block (sectorData S contents i) ((k + i) % M32)
      | none => sectorData S contents i) ++
    writeRawSectors encKey S contents (i + 1) r

/-- `write_file` from `creator.rs` at relative position `relPos` (the
distance from `archive_start`; file keys use exactly this distance).  The
returned byte chunk is what ends up at the file's position — for the
compressed branch the sector offset table (patched in after the sectors
are known, and encrypted with `key − 1` if requested) followed by the
sectors — together with the updated record. -/
def writeFileChunk (codec : ExtCodec) (S relPos : Nat) (fr : FileRecord) :
    (List Nat × FileRecord) :=
  let sc := sector_count_from_size fr.contents.length S
  let encKey := if fr.options.encrypt then
      some (calculate_file_key fr.file_name (relPos % M32) (fr.contents.length % M32)
        fr.options.adjust_key)
    else none
  if fr.options.compress then
    let firstOff := (sc + 1) * 4 % M32
    let res := writeSectors codec encKey S fr.contents 0 firstOff sc
    let sotPlain := ((firstOff :: res.2).map u32le).flatten
    let sot := match encKey with
      | some k => encrypt_mpq_block sotPlain ((k + M32 - 1) % M32)
      | none => sotPlain
    (sot ++ res.1,
     { fr with offset := relPos, compressed_size := (sot ++ res.1).length })
  else
    let bytes := writeRawSectors encKey S fr.contents 0 sc
    (bytes, { fr with offset := relPos, compressed_size := bytes.length })

/-- The `for file in added_files.values_mut()` loop of `Creator::write`:
emit every file chunk back-to-back, starting at relative position
`relPos`, and collect the updated records. -/
def writeAllFiles (codec : ExtCodec) (S : Nat) :
    Nat → List (FileKey × FileRecord) → (List Nat × List (FileKey × FileRecord))
  | _, [] => ([], [])
  | relPos, (k, fr) :: rest =>
    let c := writeFileChunk codec S relPos fr
    let r := writeAllFiles codec S (relPos + c.1.length) rest
    (c.1 ++ r.1, (k, c.2) :: r.2)

/-- The bytes of the synthesized `(listfile)`: each stored file name
followed by CRLF, in insertion order. -/
def listfileBytes (files : List (FileKey × FileRecord)) : List Nat :=
  (files.map (fun p => p.2.file_name ++ [13, 10])).flatten

/-- The byte string `"(listfile)"`. -/
def LISTFILE_NAME : List Nat := [40, 108, 105, 115, 116, 102, 105, 108, 101, 41]

/-- `Creator::write`'s insertion of the `(listfile)` into the pending map
(options `compress`, `encrypt`, `adjust_key` all set). -/
def insertListfile (files : List (FileKey × FileRecord)) : List (FileKey × FileRecord) :=
  indexMapInsert files (FileKey.ofName LISTFILE_NAME)
    (FileRecord.ofParts LISTFILE_NAME (listfileBytes files) ⟨true, true, true⟩)

/-- The doubling loop sizing the hash table (`while hashtable_size <
added_files.len() { hashtable_size *= 2 }`); the fuel argument only
bounds the recursion and never fires when it is at least the target. -/
def hashTableSizeLoop : Nat → Nat → Nat → Nat
  | hs, _, 0 => hs
  | hs, len, f + 1 => if hs < len then hashTableSizeLoop (hs * 2) len f else hs

/-- The hash-table size chosen by `Creator::write`. -/
def hashtableSize (len : Nat) : Nat := hashTableSizeLoop MIN_HASH_TABLE_SIZE len len

/-- The open-addressed slot search of `write_hashtable` (`creator.rs`):
from the masked start slot, advance (wrapping at `size`) until a blank
slot; fuel bounds the loop (a blank always exists when the table is not
full). -/
def findBlankSlot (tbl : List HashEntry) (size : Nat) : Nat → Nat → Nat
  | i, 0 => i
  | i, f + 1 =>
    if (tbl.getD i HashEntry.blank).block_index = 0xFFFFFFFF then i
    else findBlankSlot tbl size (if i + 1 = size then 0 else i + 1) f

/-- `write_hashtable`'s table construction: a blank table of `size`
entries, then each file's entry inserted by probing from
`key.index & (size − 1)`, with `block_index` the file's position. -/
def buildHashTable (size : Nat) (files : List (FileKey × FileRecord)) : List HashEntry :=
  (files.foldl
    (fun (st : List HashEntry × Nat) kv =>
      let slot := findBlankSlot st.1 size (Nat.land kv.1.index (size - 1)) size
      (st.1.set slot
        { hash_a := kv.1.hash_a, hash_b := kv.1.hash_b, locale := 0, platform := 0,
          block_index := st.2 }, st.2 + 1))
    (List.replicate size HashEntry.blank, 0)).1

/-- `HashEntry::write` from `table.rs`: 16 little-endian bytes. -/
def hashEntryBytes (e : HashEntry) : List Nat :=
  u32le e.hash_a ++ u32le e.hash_b ++ u16le e.locale ++ u16le e.platform ++ u32le e.block_index

/-- `BlockEntry::write` from `table.rs` for the record of a written file
(each field cast to u32). -/
def blockRecordBytes (fr : FileRecord) : List Nat :=
  u32le fr.offset ++ u32le fr.compressed_size ++ u32le fr.contents.length ++
    u32le (FileOptions.flags fr.options)

/-- `FileHeader` (the fields of `MpqFileHeader` in `header.rs`). -/
structure FileHeader where
  header_size : Nat
  archive_size : Nat
  format_version : Nat
  block_size : Nat
  hash_table_offset : Nat
  block_table_offset : Nat
  hash_table_entries : Nat
  block_table_entries : Nat
deriving DecidableEq, Repr

/-- A fuel-counted floor base-2 logarithm (so that the kernel can reduce
it), agreeing with `Nat.log2` on its domain. -/
def log2Fuel : Nat → Nat → Nat
  | 0, _ => 0
  | fuel + 1, n => if 2 ≤ n then log2Fuel fuel (n / 2) + 1 else 0

/-- Floor base-2 logarithm. -/
def floorLog2 (n : Nat) : Nat := log2Fuel n n

/-- Modelled from the spec: `FileHeader::new_v1` (the live `header.rs` is
missing from src); the block-size exponent satisfies
`sector size = 512 · 2^exp` (spec §4.2). -/
def FileHeader.new_v1 (archiveSize sectorSize htOff btOff htEntries btEntries : Nat) :
    FileHeader :=
  { header_size := HEADER_MPQ_SIZE
    archive_size := archiveSize
    format_version := 0
    block_size := floorLog2 (sectorSize / 512)
    hash_table_offset := htOff
    block_table_offset := btOff
    hash_table_entries := htEntries
    block_table_entries := btEntries }

/-- `FileHeader::write`: the 4-byte magic followed by the 28 bytes of
fields, all little-endian. -/
def FileHeader.bytes (h : FileHeader) : List Nat :=
  u32le HEADER_MPQ_MAGIC ++ u32le h.header_size ++ u32le h.archive_size ++
    u16le h.format_version ++ u16le h.block_size ++ u32le h.hash_table_offset ++
    u32le h.block_table_offset ++ u32le h.hash_table_entries ++ u32le h.block_table_entries

/-- The pending map after `Creator::write` adds the `(listfile)`. -/
def creatorFiles (files : List (FileKey × FileRecord)) : List (FileKey × FileRecord) :=
  insertListfile files

/-- The records after every file chunk is written (positions start just
past the reserved header). -/
def creatorWritten (codec : ExtCodec) (S : Nat) (files : List (FileKey × FileRecord)) :
    List Nat × List (FileKey × FileRecord) :=
  writeAllFiles codec S HEADER_MPQ_SIZE (creatorFiles files)

/-- The encrypted serialized hash table written by `write_hashtable`. -/
def creatorHtBytes (codec : ExtCodec) (S : Nat) (files : List (FileKey × FileRecord)) :
    List Nat :=
  encrypt_mpq_block
    (((buildHashTable (hashtableSize (creatorFiles files).length)
        (creatorFiles files)).map hashEntryBytes).flatten)
    HASH_TABLE_KEY

/-- The encrypted serialized block table written by `write_blocktable`. -/
def creatorBtBytes (codec : ExtCodec) (S : Nat) (files : List (FileKey × FileRecord)) :
    List Nat :=
  encrypt_mpq_block
    (((creatorWritten codec S files).2.map (fun p => blockRecordBytes p.2)).flatten)
    BLOCK_TABLE_KEY

/-- The archive-relative position of the hash table. -/
def creatorHtPos (codec : ExtCodec) (S : Nat) (files : List (FileKey × FileRecord)) : Nat :=
  HEADER_MPQ_SIZE + (creatorWritten codec S files).1.length

/-- The archive-relative position of the block table. -/
def creatorBtPos (codec : ExtCodec) (S : Nat) (files : List (FileKey × FileRecord)) : Nat :=
  creatorHtPos codec S files + (creatorHtBytes codec S files).length

/-- The archive-relative end position (`archive_end − archive_start`). -/
def creatorEnd (codec : ExtCodec) (S : Nat) (files : List (FileKey × FileRecord)) : Nat :=
  creatorBtPos codec S files + (creatorBtBytes codec S files).length

/-- The header written last by `Creator::write` (all offset and count
arguments are cast to u32, modelled by `% 2^32`). -/
def creatorHeader (codec : ExtCodec) (S : Nat) (files : List (FileKey × FileRecord)) :
    FileHeader :=
  FileHeader.new_v1 (creatorEnd codec S files % M32) S
    (creatorHtPos codec S files % M32) (creatorBtPos codec S files % M32)
    (hashtableSize (creatorFiles files).length % M32)
    ((creatorFiles files).length % M32)

/-- The complete archive image produced by `Creator::write` on an empty
sink (so `archive_start = 0`): header, file chunks, hash table, block
table. -/
def creator_write (codec : ExtCodec) (S : Nat) (files : List (FileKey × FileRecord)) :
    List Nat :=
  (creatorHeader codec S files).bytes ++ (creatorWritten codec S files).1 ++
    creatorHtBytes codec S files ++ creatorBtBytes codec S files

/-! ## C9: header fields of a written archive -/

/-- The word count of `bytesToWords`. -/
theorem bytesToWords_length :
    ∀ (data : List Nat), (bytesToWords data).length = data.length / 4
  | [] => rfl
  | [a] => by rw [show bytesToWords [a] = [] from rfl]; simp
  | [a, b] => by rw [show bytesToWords [a, b] = [] from rfl]; simp
  | [a, b, c] => by rw [show bytesToWords [a, b, c] = [] from rfl]; simp
  | a :: b :: c :: d :: rest => by
    rw [bytesToWords]
    simp only [List.length_cons]
    rw [bytesToWords_length rest]
    omega

/-- Encryption preserves the byte length. -/
theorem encrypt_mpq_block_length (data : List Nat) (key : Nat) :
    (encrypt_mpq_block data key).length = data.length := by
  unfold encrypt_mpq_block trailingBytes
  rw [List.length_append, wordsToBytes_length, encryptWords_length, bytesToWords_length,
    List.length_drop]
  omega

/-- The length of a flattened map with constant chunk size. -/
theorem flatten_map_length {α : Type} (f : α → List Nat) (c : Nat)
    (h : ∀ x, (f x).length = c) : ∀ (l : List α), ((l.map f).flatten).length = c * l.length := by
  intro l
  induction l with
  | nil => simp
  | cons x xs ih =>
    rw [List.map_cons, List.flatten_cons, List.length_append, ih, h x, List.length_cons]
    ring

theorem hashEntryBytes_length (e : HashEntry) : (hashEntryBytes e).length = 16 := rfl

theorem blockRecordBytes_length (fr : FileRecord) : (blockRecordBytes fr).length = 16 := rfl

/-- The built hash table has exactly `size` slots. -/
theorem buildHashTable_length (size : Nat) (files : List (FileKey × FileRecord)) :
    (buildHashTable size files).length = size := by
  unfold buildHashTable
  have main : ∀ (l : List (FileKey × FileRecord)) (st : List HashEntry × Nat),
      st.1.length = size →
      ((l.foldl (fun (st : List HashEntry × Nat) kv =>
        let slot := findBlankSlot st.1 size (Nat.land kv.1.index (size - 1)) size
        (st.1.set slot
          { hash_a := kv.1.hash_a, hash_b := kv.1.hash_b, locale := 0, platform := 0,
            block_index := st.2 }, st.2 + 1)) st).1).length = size := by
    intro l
    induction l with
    | nil => intro st h; exact h
    | cons kv rest ih =>
      intro st h
      rw [List.foldl_cons]
      apply ih
      simpa using h
  exact main _ _ (by simp)

/-- The write loop returns one record per pending file, keys unchanged. -/
theorem writeAllFiles_snd (codec : ExtCodec) (S : Nat) :
    ∀ (files : List (FileKey × FileRecord)) (pos : Nat),
      ((writeAllFiles codec S pos files).2).length = files.length ∧
      ((writeAllFiles codec S pos files).2).map Prod.fst = files.map Prod.fst := by
  intro files
  induction files with
  | nil => intro pos; exact ⟨rfl, rfl⟩
  | cons kv rest ih =>
    intro pos
    rw [writeAllFiles]
    constructor
    · simp only [List.length_cons]
      exact congrArg (· + 1) (ih _).1
    · simp only [List.map_cons]
      rw [(ih _).2]

/-- Behaviour of the hash-table doubling loop, given enough fuel. -/
theorem hashTableSizeLoop_spec :
    ∀ (f hs len : Nat), (∃ t, hs = 2 ^ t) → 4 ≤ hs → len ≤ 2 ^ f * hs →
      (∃ k, hashTableSizeLoop hs len f = 2 ^ k) ∧
      hs ≤ hashTableSizeLoop hs len f ∧
      len ≤ hashTableSizeLoop hs len f ∧
      ∀ p, hs ≤ p → (∃ k, p = 2 ^ k) → len ≤ p → hashTableSizeLoop hs len f ≤ p := by
  intro f
  induction f with
  | zero =>
    intro hs len hpow h4 hlen
    simp only [pow_zero, one_mul] at hlen
    exact ⟨hpow, le_rfl, hlen, fun p hp _ _ => hp⟩
  | succ g ih =>
    intro hs len hpow h4 hlen
    rw [hashTableSizeLoop]
    by_cases hc : hs < len
    · rw [if_pos hc]
      obtain ⟨t, ht⟩ := hpow
      have hmul : 2 ^ (g + 1) * hs = 2 ^ g * (hs * 2) := by ring
      have hrec := ih (hs * 2) len ⟨t + 1, by rw [ht]; ring⟩ (by omega) (by omega)
      obtain ⟨hp1, hp2, hp3, hp4⟩ := hrec
      refine ⟨hp1, by omega, hp3, ?_⟩
      intro p hp hpw hlp
      obtain ⟨k, hk⟩ := hpw
      have h2 : (2 : Nat) ^ t < 2 ^ k := by rw [← ht, ← hk]; omega
      have htk : t < k := by
        by_contra hc2
        have : (2 : Nat) ^ k ≤ 2 ^ t := Nat.pow_le_pow_right (by omega) (by omega)
        omega
      have h3 : (2 : Nat) ^ (t + 1) ≤ 2 ^ k := Nat.pow_le_pow_right (by omega) (by omega)
      have h4' : hs * 2 = 2 ^ (t + 1) := by rw [ht]; ring
      exact hp4 p (by omega) ⟨k, hk⟩ hlp
    · rw [if_neg hc]
      exact ⟨hpow, le_rfl, by omega, fun p hp _ _ => hp⟩

/-- The chosen hash-table size is the least power of two that is at least
`max 4 len`. -/
theorem hashtableSize_spec (len : Nat) :
    (∃ k, hashtableSize len = 2 ^ k) ∧ max 4 len ≤ hashtableSize len ∧
      ∀ p, (∃ k, p = 2 ^ k) → max 4 len ≤ p → hashtableSize len ≤ p := by
  have hfuel : len ≤ 2 ^ len * 4 := by
    have := Nat.lt_two_pow len
    omega
  have h := hashTableSizeLoop_spec len 4 len ⟨2, rfl⟩ le_rfl hfuel
  exact ⟨h.1, max_le h.2.1 h.2.2.1,
    fun p hpw hmax => h.2.2.2 p (le_trans (le_max_left 4 len) hmax) hpw
      (le_trans (le_max_right 4 len) hmax)⟩

/-- C9: in the header of every written archive, the hash-table entry
count is the number of hash entries actually serialized — the least power
of two at least `max(MIN_HASH_TABLE_SIZE, number of files including the
synthesized (listfile))`; the block-table entry count is the number of
files including the `(listfile)`; and `archive_size` is
`archive_end − archive_start`. -/
theorem C9_header_fields (codec : ExtCodec) (S : Nat) (files : List (FileKey × FileRecord))
    (hhs : hashtableSize (creatorFiles files).length < M32)
    (hbt : (creatorFiles files).length < M32)
    (hend : creatorEnd codec S files < M32) :
    ((creatorHeader codec S files).hash_table_entries =
        hashtableSize (creatorFiles files).length ∧
      (creatorHtBytes codec S files).length =
        16 * hashtableSize (creatorFiles files).length ∧
      (∃ k, hashtableSize (creatorFiles files).length = 2 ^ k) ∧
      max MIN_HASH_TABLE_SIZE (creatorFiles files).length ≤
        hashtableSize (creatorFiles files).length ∧
      (∀ p, (∃ k, p = 2 ^ k) → max MIN_HASH_TABLE_SIZE (creatorFiles files).length ≤ p →
        hashtableSize (creatorFiles files).length ≤ p)) ∧
    ((creatorHeader codec S files).block_table_entries = (creatorFiles files).length ∧
      (creatorBtBytes codec S files).length = 16 * (creatorFiles files).length) ∧
    (creatorHeader codec S files).archive_size = creatorEnd codec S files := by
  have hspec := hashtableSize_spec (creatorFiles files).length
  refine ⟨⟨?_, ?_, hspec.1, hspec.2.1, hspec.2.2⟩, ⟨?_, ?_⟩, ?_⟩
  · show hashtableSize (creatorFiles files).length % M32 = _
    exact Nat.mod_eq_of_lt hhs
  · unfold creatorHtBytes
    rw [encrypt_mpq_block_length, flatten_map_length hashEntryBytes 16 hashEntryBytes_length,
      buildHashTable_length]
  · show (creatorFiles files).length % M32 = _
    exact Nat.mod_eq_of_lt hbt
  · unfold creatorBtBytes
    rw [encrypt_mpq_block_length,
      @flatten_map_length (FileKey × FileRecord) (fun p => blockRecordBytes p.2) 16
        (fun p => blockRecordBytes_length p.2)]
    unfold creatorWritten
    rw [(writeAllFiles_snd codec S (creatorFiles files) HEADER_MPQ_SIZE).1]
  · show creatorEnd codec S files % M32 = _
    exact Nat.mod_eq_of_lt hend

set_option maxRecDepth 100000 in
/-- Witness for C9: one added file `"a" = [66]` (compressed), vacuous
codec, sector size `0x10000`. -/
theorem C9_header_fields_witness :
    (hashtableSize (creatorFiles [(FileKey.ofName [97],
        FileRecord.ofParts [97] [66] ⟨false, true, false⟩)]).length < M32 ∧
      creatorEnd trivCodec 65536 [(FileKey.ofName [97],
        FileRecord.ofParts [97] [66] ⟨false, true, false⟩)] < M32) ∧
      (creatorHeader trivCodec 65536 [(FileKey.ofName [97],
          FileRecord.ofParts [97] [66] ⟨false, true, false⟩)]).archive_size =
        creatorEnd trivCodec 65536 [(FileKey.ofName [97],
          FileRecord.ofParts [97] [66] ⟨false, true, false⟩)] :=
  ⟨⟨by decide, by decide⟩,
    (C9_header_fields trivCodec 65536
      [(FileKey.ofName [97], FileRecord.ofParts [97] [66] ⟨false, true, false⟩)]
      (by decide) (by decide) (by decide)).2.2⟩
end CeresMpq
